import Mathlib

/-!
# Ethnic QR scanner frontend: stock previews, product form and QR cache

A shallow embedding of the client-side state handling of the admin console
(`src/pages/admin/*.js`) and of the product page (`src/pages/p/[productId].js`), together
with the properties of their stock arithmetic and stock-update handlers, of the session
guard, of the product form, of the variant linking, of the image search, of the zoom level
and of the QR-code list with its local-storage fallback.

Conventions of the embedding:

* a React state variable is a field of a state record; a handler is a function from the
  state before to the state after, with everything the handler reads from outside
  (the backend's answer, the confirm dialog, the clock) given as an argument;
* integer-valued JavaScript numbers are `Int`; `NaN` is `none` in `Option Int`;
* the select boxes deliver their `operation` as a string, and the code compares strings,
  so operations are `String`s here as well;
* a write to `localStorage` succeeds.
-/

/-! ## Inventory dashboard (`src/pages/admin/inventory.js`) -/

namespace InventoryDashboard

/-- The expression `selectedProduct.stock || 0`: a missing stock, and the falsy number `0`,
both give `0`. -/
def stockOrZero (stock : Option Int) : Int :=
  match stock with
  | some n => if n = 0 then 0 else n
  | none => 0

/-- The "New Stock" preview of the stock-update modal (`inventory.js`, lines 503-507). -/
def newStock (operation : String) (stock : Option Int) (quantity : Int) : Int :=
  if operation = "add" then stockOrZero stock + quantity
  else if operation = "subtract" then max 0 (stockOrZero stock - quantity)
  else quantity

end InventoryDashboard

/-! ## Fabric pages (`src/pages/admin/fabrics.js`, `src/pages/admin/fabrics/[fabricId].js`)

Fabric stock is measured in meters and is not an integer.  The previews only add, subtract
and take a maximum, so they are embedded over an arbitrary linearly ordered number type
`α`; the rationals (exact meters) and the integers are instances. -/

namespace FabricManagement

/-- The "New Stock" preview of the fabric list page (`fabrics.js`, lines 664-668), before
`toFixed(1)` formats it. -/
def newStock {α : Type} [LinearOrder α] [Zero α] [Add α] [Sub α]
    (operation : String) (currentStock quantity : α) : α :=
  if operation = "add" then currentStock + quantity
  else if operation = "subtract" then max 0 (currentStock - quantity)
  else quantity

end FabricManagement

namespace FabricDetails

/-- The "New Stock" preview of the fabric detail page (`fabrics/[fabricId].js`,
lines 532-536), before `toFixed(1)` formats it. -/
def newStock {α : Type} [LinearOrder α] [Zero α] [Add α] [Sub α]
    (operation : String) (currentStock quantity : α) : α :=
  if operation = "add" then currentStock + quantity
  else if operation = "subtract" then max 0 (currentStock - quantity)
  else quantity

end FabricDetails

/-! ## Admin dashboard (`src/pages/admin/dashboard.js`): the QR-code list

The dashboard keeps the generated QR codes in the React state `qrCodes` and mirrors them,
as JSON text, under the local-storage key `generatedQRCodes`. -/

namespace AdminDashboard

/-- A product as the dashboard reads it: `productId` and `name` (an absent name and the
empty name are both falsy, and are both the empty string here). -/
structure Product where
  productId : String
  name : String
  deriving DecidableEq, Repr

/-- An entry of the QR list: what the backend sends for a product (`productId`, the
`qrCode` image payload, the `fromCache` flag) with the `productName` and `generatedAt`
stamp that the dashboard puts on it. -/
structure QRCodeEntry where
  productId : String
  qrCode : String
  fromCache : Bool
  productName : String
  generatedAt : String
  deriving DecidableEq, Repr

/-- A rejected request: `error.response?.status` and `error.response?.data?.error`. -/
structure HttpError where
  status : Option Nat
  message : Option String
  deriving DecidableEq, Repr

end AdminDashboard

/-! ### `JSON.stringify` and `JSON.parse` on QR lists

The text is the one JavaScript writes for an array of entry objects: no white space,
strings in double quotes with `"`, `\` and the control characters escaped.  `parse` reads
texts of that shape; on any other text it gives `none`, which stands for the exception
that `JSON.parse` throws. -/

namespace JSON

open AdminDashboard

/-- The double quote. -/
def quoteChar : Char := Char.ofNat 34

/-- The backslash. -/
def backslash : Char := Char.ofNat 92

/-- Lower-case hexadecimal digit of a number below 16. -/
def hexDigit (n : Nat) : Char :=
  if n < 10 then Char.ofNat (48 + n) else Char.ofNat (87 + n)

/-- Value of a hexadecimal digit. -/
def hexValue (c : Char) : Option Nat :=
  if 48 ≤ c.toNat ∧ c.toNat ≤ 57 then some (c.toNat - 48)
  else if 97 ≤ c.toNat ∧ c.toNat ≤ 102 then some (c.toNat - 87)
  else if 65 ≤ c.toNat ∧ c.toNat ≤ 70 then some (c.toNat - 55)
  else none

/-- How `JSON.stringify` writes one character of a string. -/
def escapeChar (c : Char) : List Char :=
  if c = quoteChar then [backslash, quoteChar]
  else if c = backslash then [backslash, backslash]
  else if c.toNat = 8 then [backslash, 'b']
  else if c.toNat = 12 then [backslash, 'f']
  else if c.toNat = 10 then [backslash, 'n']
  else if c.toNat = 13 then [backslash, 'r']
  else if c.toNat = 9 then [backslash, 't']
  else if c.toNat < 32 then
    [backslash, 'u', '0', '0', hexDigit (c.toNat / 16), hexDigit (c.toNat % 16)]
  else [c]

/-- The escaped characters of a string. -/
def escape : List Char → List Char
  | [] => []
  | c :: cs => escapeChar c ++ escape cs

/-- A string as JSON text, between double quotes. -/
def quote (s : String) : List Char := quoteChar :: (escape s.data ++ [quoteChar])

/-- The character that a one-letter escape stands for. -/
def unescapeSimple (e : Char) : Option Char :=
  if e = quoteChar then some quoteChar
  else if e = backslash then some backslash
  else if e = '/' then some '/'
  else if e = 'b' then some (Char.ofNat 8)
  else if e = 'f' then some (Char.ofNat 12)
  else if e = 'n' then some (Char.ofNat 10)
  else if e = 'r' then some (Char.ofNat 13)
  else if e = 't' then some (Char.ofNat 9)
  else none

/-- Reads the characters of a JSON string up to its closing quote; gives the string read
and the rest of the input. -/
def readString : List Char → Option (List Char × List Char)
  | [] => none
  | c :: rest =>
    if c = quoteChar then some ([], rest)
    else if c = backslash then
      match rest with
      | [] => none
      | e :: rest1 =>
        if e = 'u' then
          match rest1 with
          | a :: b :: c3 :: d :: rest2 =>
            match hexValue a, hexValue b, hexValue c3, hexValue d with
            | some x, some y, some z, some w =>
              (readString rest2).map
                fun p => (Char.ofNat (((x * 16 + y) * 16 + z) * 16 + w) :: p.1, p.2)
            | _, _, _, _ => none
          | _ => none
        else
          match unescapeSimple e with
          | some ch => (readString rest1).map fun p => (ch :: p.1, p.2)
          | none => none
    else if c.toNat < 32 then none
    else (readString rest).map fun p => (c :: p.1, p.2)

/-- Reads a quoted JSON string. -/
def readQuoted : List Char → Option (String × List Char)
  | [] => none
  | c :: rest =>
    if c = quoteChar then (readString rest).map fun p => (String.mk p.1, p.2) else none

/-- Reads the fixed text `lit` off the front of the input. -/
def expect : List Char → List Char → Option (List Char)
  | [], inp => some inp
  | _ :: _, [] => none
  | l :: ls, c :: cs => if l = c then expect ls cs else none

/-- A boolean as JSON text. -/
def boolText (b : Bool) : List Char := if b then "true".data else "false".data

/-- Reads `true` or `false`. -/
def readBool (inp : List Char) : Option (Bool × List Char) :=
  match expect "true".data inp with
  | some r => some (true, r)
  | none =>
    match expect "false".data inp with
    | some r => some (false, r)
    | none => none

/-- The text before the value of `productId`. -/
def keyProductId : List Char := "\x7b\"productId\":".data

/-- The text before the value of `qrCode`. -/
def keyQrCode : List Char := ",\"qrCode\":".data

/-- The text before the value of `fromCache`. -/
def keyFromCache : List Char := ",\"fromCache\":".data

/-- The text before the value of `productName`. -/
def keyProductName : List Char := ",\"productName\":".data

/-- The text before the value of `generatedAt`. -/
def keyGeneratedAt : List Char := ",\"generatedAt\":".data

/-- The closing brace of an object. -/
def closeBrace : List Char := "\x7d".data

/-- One entry as JSON text: the keys of the backend's answer (`productId`, `qrCode`,
`fromCache`) and then the two that the dashboard sets (`productName`, `generatedAt`). -/
def stringifyEntry (e : QRCodeEntry) : List Char :=
  keyProductId ++ (quote e.productId ++ (keyQrCode ++ (quote e.qrCode ++
    (keyFromCache ++ (boolText e.fromCache ++ (keyProductName ++ (quote e.productName ++
      (keyGeneratedAt ++ (quote e.generatedAt ++ closeBrace)))))))))

/-- Reads one entry. -/
def readEntry (inp : List Char) : Option (QRCodeEntry × List Char) :=
  (expect keyProductId inp).bind fun r1 =>
  (readQuoted r1).bind fun p1 =>
  (expect keyQrCode p1.2).bind fun r2 =>
  (readQuoted r2).bind fun p2 =>
  (expect keyFromCache p2.2).bind fun r3 =>
  (readBool r3).bind fun p3 =>
  (expect keyProductName p3.2).bind fun r4 =>
  (readQuoted r4).bind fun p4 =>
  (expect keyGeneratedAt p4.2).bind fun r5 =>
  (readQuoted r5).bind fun p5 =>
  (expect closeBrace p5.2).bind fun r6 =>
  some (⟨p1.1, p2.1, p3.1, p4.1, p5.1⟩, r6)

/-- The entries after the first, each behind a comma, and the closing bracket. -/
def stringifyTail : List QRCodeEntry → List Char
  | [] => [']']
  | e :: es => ',' :: (stringifyEntry e ++ stringifyTail es)

/-- The text `JSON.stringify` writes for a QR list. -/
def stringify (qrCodes : List QRCodeEntry) : String :=
  match qrCodes with
  | [] => String.mk ['[', ']']
  | e :: es => String.mk ('[' :: (stringifyEntry e ++ stringifyTail es))

/-- Reads the entries after the first up to the closing bracket; `fuel` bounds their
number. -/
def readTail : Nat → List Char → Option (List QRCodeEntry × List Char)
  | 0, _ => none
  | _ + 1, [] => none
  | fuel + 1, c :: rest =>
    if c = ']' then some ([], rest)
    else if c = ',' then
      (readEntry rest).bind fun p =>
      (readTail fuel p.2).bind fun q => some (p.1 :: q.1, q.2)
    else none

/-- The result of `JSON.parse` on a text, as a QR list.  The fuel is the length of the text, which is
more than the number of entries it can hold. -/
def parse (text : String) : Option (List QRCodeEntry) :=
  match text.data with
  | [] => none
  | c :: rest =>
    if c = '[' then
      match rest with
      | [] => none
      | c2 :: rest2 =>
        if c2 = ']' then (if rest2 = [] then some [] else none)
        else
          (readEntry rest).bind fun p =>
          (readTail rest.length p.2).bind fun q =>
          if q.2 = [] then some (p.1 :: q.1) else none
    else none

end JSON

namespace AdminDashboard

/-- The part of the browser's `localStorage` that the dashboard uses: the session token
and the QR snapshot; `none` is an absent key. -/
structure LocalStorage where
  ownerToken : Option String
  generatedQRCodes : Option String
  deriving DecidableEq, Repr

/-- The dashboard's React state `products` and `qrCodes`, and the local storage. -/
structure State where
  products : List Product
  qrCodes : List QRCodeEntry
  storage : LocalStorage
  deriving DecidableEq, Repr

/-- The helper `saveQRCodesToStorage` (lines 81-87):
`setItem('generatedQRCodes', JSON.stringify(..))`.  The write is taken to succeed. -/
def saveQRCodesToStorage (storage : LocalStorage) (qrCodes : List QRCodeEntry) :
    LocalStorage :=
  { storage with generatedQRCodes := some (JSON.stringify qrCodes) }

/-- The fallback `loadSavedQRCodesFromStorage` (lines 69-78): a missing or empty item is falsy and
leaves the state alone; so does a text that `JSON.parse` rejects, whose exception is
caught. -/
def loadSavedQRCodesFromStorage (st : State) : State :=
  match st.storage.generatedQRCodes with
  | none => st
  | some savedQRCodes =>
    if savedQRCodes = "" then st
    else
      match JSON.parse savedQRCodes with
      | some list => { st with qrCodes := list }
      | none => st

/-- The loader `loadSavedQRCodesFromDB` (lines 51-66); `response` is the outcome of
`GET /api/qr/saved/all`. -/
def loadSavedQRCodesFromDB (st : State) (response : Except HttpError (List QRCodeEntry)) :
    State :=
  match response with
  | .ok data => { st with qrCodes := data }
  | .error _ => loadSavedQRCodesFromStorage st

/-- The handler `generateQRCode` (lines 89-114); `response` is the outcome of `GET /api/qr/:productId`
and `now` is `new Date().toISOString()`.  The state updater works on the list that is
current when it runs, and saves the list it returns. -/
def generateQRCode (st : State) (productId productName : String) (now : String)
    (response : Except HttpError QRCodeEntry) : State :=
  match response with
  | .ok data =>
    let qrData : QRCodeEntry := { data with productName := productName, generatedAt := now }
    let filtered := st.qrCodes.filter fun qr => qr.productId != productId
    let newQRCodes := filtered ++ [qrData]
    { st with qrCodes := newQRCodes, storage := saveQRCodesToStorage st.storage newQRCodes }
  | .error _ => st

/-- The name given to an entry by `generateAllQRCodes`: `product?.name || qr.productId`. -/
def nameFor (products : List Product) (qr : QRCodeEntry) : String :=
  match products.find? fun p => p.productId == qr.productId with
  | some product => if product.name = "" then qr.productId else product.name
  | none => qr.productId

/-- The handler `generateAllQRCodes` (lines 116-139); `response` is the outcome of `GET /api/qr`. -/
def generateAllQRCodes (st : State) (now : String)
    (response : Except HttpError (List QRCodeEntry)) : State :=
  match response with
  | .ok data =>
    let qrWithNames := data.map fun qr =>
      ({ qr with productName := nameFor st.products qr, generatedAt := now } : QRCodeEntry)
    { st with qrCodes := qrWithNames, storage := saveQRCodesToStorage st.storage qrWithNames }
  | .error _ => st

/-- The handler `clearAllQRCodes` (lines 158-177); `confirmed` is the answer of the confirm dialog.
A failed `DELETE /api/qr` is caught by the `.catch` on the request, so the handler goes
on in the same way after either outcome. -/
def clearAllQRCodes (st : State) (confirmed : Bool) (_response : Except HttpError Unit) :
    State :=
  if confirmed then
    { st with qrCodes := [], storage := { st.storage with generatedQRCodes := none } }
  else st

/-- The handler `deleteQRCode` (lines 179-198).  The state updater filters the list that is current
when it runs (`st.qrCodes`); the list given to `saveQRCodesToStorage` is the `qrCodes` of
the render in which the handler was created (`captured`).  A failed
`DELETE /api/qr/:productId` is caught by the `.catch` on the request. -/
def deleteQRCode (st : State) (captured : List QRCodeEntry) (productId : String)
    (confirmed : Bool) (_response : Except HttpError Unit) : State :=
  if confirmed then
    { st with
      qrCodes := st.qrCodes.filter fun qr => qr.productId != productId,
      storage := saveQRCodesToStorage st.storage
        (captured.filter fun qr => qr.productId != productId) }
  else st

end AdminDashboard

/-! ## JavaScript values of the product form

The fields of the product form hold numbers (as initial values and as computed totals) and
the texts typed into inputs.  The numbers of this part are stock counts, so the model has
the integers only.  A text is read exactly when it is blank or an optionally signed run of
decimal digits; every other text is `none`, which is `NaN` for a text that denotes no
number, and which leaves out the texts that JavaScript reads as a number in another
notation or with a fraction (`1e2`, `2.5`).  What a handler stores for an input is
therefore stated only for inputs that `Number` reads as `some` integer. -/

namespace JS

/-- A number or a text. -/
inductive Value where
  | num (n : Int)
  | str (s : String)
  deriving DecidableEq, Repr

/-- White space that `Number` strips from both ends of a text. -/
def isSpace (c : Char) : Bool :=
  c.toNat = 32 || c.toNat = 9 || c.toNat = 10 || c.toNat = 11 || c.toNat = 12 ||
    c.toNat = 13 || c.toNat = 160

/-- Value of a decimal digit. -/
def digitValue (c : Char) : Option Nat :=
  if 48 ≤ c.toNat ∧ c.toNat ≤ 57 then some (c.toNat - 48) else none

/-- Value of a non-empty run of decimal digits, continuing from `acc`. -/
def readDigits : List Char → Nat → Option Nat
  | [], acc => some acc
  | c :: cs, acc =>
    match digitValue c with
    | some d => readDigits cs (acc * 10 + d)
    | none => none

/-- A text without the white space at its ends. -/
def trim (l : List Char) : List Char :=
  ((l.dropWhile isSpace).reverse.dropWhile isSpace).reverse

/-- The conversion `Number(text)` on the texts of integers: the empty (or blank) text is `0`
and an optionally signed run of digits is its value.  Every other text is `none`: `NaN`,
or a number that is outside the integers of this model (see above). -/
def stringToNumber (s : String) : Option Int :=
  match trim s.data with
  | [] => some 0
  | c :: cs =>
    if c = '-' then
      (if cs = [] then none else (readDigits cs 0).map fun n => -(n : Int))
    else if c = '+' then
      (if cs = [] then none else (readDigits cs 0).map fun n => (n : Int))
    else (readDigits (c :: cs) 0).map fun n => (n : Int)

/-- The conversion `Number(v)`; `none` is `NaN`, or a text outside the model (see
`stringToNumber`). -/
def Number : Value → Option Int
  | .num n => some n
  | .str s => stringToNumber s

/-- The expression `x || 0` for a number `x`: `NaN` and `0` are falsy. -/
def orZero (x : Option Int) : Int :=
  match x with
  | some n => if n = 0 then 0 else n
  | none => 0

end JS

/-! ## Product management (`src/pages/admin/products.js`): the product form -/

namespace ProductManagement

open JS

/-- An entry of `sizeStock`: a size label with its stock count. -/
structure SizeStock where
  size : String
  stock : Int
  deriving DecidableEq, Repr

/-- The embedded supplier record. -/
structure Supplier where
  name : String
  contact : String
  email : String
  leadTime : Value
  deriving DecidableEq, Repr

/-- An entry of `fabricUsed`. -/
structure FabricUse where
  fabricId : String
  fabricName : String
  metersUsed : ℚ
  costPerMeter : ℚ
  totalCost : ℚ
  deriving DecidableEq, Repr

/-- An entry of `variants`; `color` is copied from a product, on which it may be missing
(`none`). -/
structure Variant where
  productId : String
  color : Option String
  name : String
  images : List String
  deriving DecidableEq, Repr

/-- An entry of `variantColors`; `color` as in `Variant`. -/
structure VariantColor where
  color : Option String
  productId : String
  deriving DecidableEq, Repr

/-- An entry of `imageEmbeddings`. -/
structure ImageEmbedding where
  imagePath : String
  vector : List ℚ
  model : String
  deriving DecidableEq, Repr

/-- The React state `formData` of the product form.  `variants` and `variantColors` are
absent (`none`) until a variant is added or a product that has them is opened. -/
structure FormData where
  productId : String
  name : String
  description : String
  category : String
  images : List String
  sellingPrice : Value
  compareAtPrice : Value
  costPrice : Value
  supplier : Supplier
  stock : Value
  lowStockAlert : Value
  reorderPoint : Value
  fabricUsed : List FabricUse
  work : String
  color : String
  size : List String
  sizeStock : List SizeStock
  isActive : Bool
  imageEmbeddings : List ImageEmbedding
  variants : Option (List Variant)
  variantColors : Option (List VariantColor)
  deriving DecidableEq, Repr

/-- The function `getInitialFormData` (lines 44-71). -/
def getInitialFormData : FormData :=
  { productId := "", name := "", description := "", category := "Sherwani: Farma",
    images := [""], sellingPrice := .str "", compareAtPrice := .str "", costPrice := .str "",
    supplier := { name := "", contact := "", email := "", leadTime := .num 7 },
    stock := .num 0, lowStockAlert := .num 5, reorderPoint := .num 10,
    fabricUsed := [], work := "", color := "", size := ["Free Size"], sizeStock := [],
    isActive := true, imageEmbeddings := [], variants := none, variantColors := none }

/-- The inputs of the form that are wired to `handleInputChange`, by their `name`
attribute (lines 880-1283). -/
inductive InputName where
  | productId | name | category | color | costPrice | sellingPrice | compareAtPrice
  | stock | lowStockAlert | reorderPoint | work | description
  deriving DecidableEq, Repr

/-- The handler `handleInputChange` (lines 209-215): `[name]: value`, where `name` is the
name of the input and `value` its text. -/
def handleInputChange (prev : FormData) (input : InputName) (value : String) : FormData :=
  match input with
  | .productId => { prev with productId := value }
  | .name => { prev with name := value }
  | .category => { prev with category := value }
  | .color => { prev with color := value }
  | .costPrice => { prev with costPrice := .str value }
  | .sellingPrice => { prev with sellingPrice := .str value }
  | .compareAtPrice => { prev with compareAtPrice := .str value }
  | .stock => { prev with stock := .str value }
  | .lowStockAlert => { prev with lowStockAlert := .str value }
  | .reorderPoint => { prev with reorderPoint := .str value }
  | .work => { prev with work := value }
  | .description => { prev with description := value }

/-- The method `Array.prototype.findIndex`; `none` is the `-1` of an absent element. -/
def findIndex {α : Type} (p : α → Bool) : List α → Option Nat
  | [] => none
  | a :: as => if p a then some 0 else (findIndex p as).map fun i => i + 1

/-- The assignment `list[i] = { ...list[i], stock: qty }`. -/
def setStockAt : List SizeStock → Nat → Int → List SizeStock
  | [], _, _ => []
  | s :: rest, 0, qty => { s with stock := qty } :: rest
  | s :: rest, i + 1, qty => s :: setStockAt rest i qty

/-- The handler `handleSizeStockChange` (lines 217-250). -/
def handleSizeStockChange (prev : FormData) (index : Nat) (value : Value) : FormData :=
  let qty := orZero (Number value)
  let sizes := prev.size
  match sizes[index]? with
  | none => prev
  | some sizeLabel =>
    if sizeLabel = "" then prev
    else
      let currentSizeStock :=
        match findIndex (fun s => s.size == sizeLabel) prev.sizeStock with
        | some existingIndex => setStockAt prev.sizeStock existingIndex qty
        | none => prev.sizeStock ++ [{ size := sizeLabel, stock := qty }]
      let totalStock :=
        currentSizeStock.foldl (fun sum s => sum + orZero (Number (.num s.stock))) 0
      { prev with sizeStock := currentSizeStock, stock := .num totalStock }

/-- The array fields that the form edits through `handleArrayChange`, `addArrayField` and
`removeArrayField` (lines 1178-1263). -/
inductive ArrayField where
  | size | images
  deriving DecidableEq, Repr

/-- The callback form `arr.map((item, i) => i === index ? value : item)`. -/
def replaceAt : List String → Nat → String → List String
  | [], _, _ => []
  | _ :: rest, 0, value => value :: rest
  | item :: rest, index + 1, value => item :: replaceAt rest index value

/-- The callback form `arr.filter((_, i) => i !== index)`. -/
def removeAt : List String → Nat → List String
  | [], _ => []
  | _ :: rest, 0 => rest
  | item :: rest, index + 1 => item :: removeAt rest index

/-- The handler `handleArrayChange` (lines 263-268). -/
def handleArrayChange (prev : FormData) (field : ArrayField) (index : Nat) (value : String) :
    FormData :=
  match field with
  | .size => { prev with size := replaceAt prev.size index value }
  | .images => { prev with images := replaceAt prev.images index value }

/-- The handler `addArrayField` (lines 270-275). -/
def addArrayField (prev : FormData) (field : ArrayField) : FormData :=
  match field with
  | .size => { prev with size := prev.size ++ [""] }
  | .images => { prev with images := prev.images ++ [""] }

/-- The handler `removeArrayField` (lines 277-282). -/
def removeArrayField (prev : FormData) (field : ArrayField) (index : Nat) : FormData :=
  match field with
  | .size => { prev with size := removeAt prev.size index }
  | .images => { prev with images := removeAt prev.images index }

/-- The data-model invariant "`stock` is the sum of `sizeStock[*].stock`". -/
def stockIsSum (f : FormData) : Prop :=
  f.stock = .num (f.sizeStock.map fun s => s.stock).sum

instance (f : FormData) : Decidable (stockIsSum f) := by
  unfold stockIsSum; infer_instance

end ProductManagement

/-! ## Requests, failures and what a handler leaves behind

A handler that talks to the backend is a function of the state and of the backend's answer;
the answer is consulted only when the handler gets as far as sending its request. -/

namespace Api

/-- A rejected request as the handlers read it: `error.message`, `error.response?.status`,
`error.response?.data?.error` and `error.response?.data?.shortages`. -/
structure RequestError where
  message : String
  status : Option Nat
  error : Option String
  shortages : Option (List String)
  deriving DecidableEq, Repr

/-- A request to the backend: method, path and body. -/
structure Request (β : Type) where
  method : String
  url : String
  body : β
  deriving DecidableEq, Repr

/-- What a handler run leaves behind: the state, the request it sent (if it sent one), the
text of the alert box it showed (if it showed one), and whether it went on to re-fetch the
data of the page. -/
structure Outcome (σ β : Type) where
  state : σ
  request : Option (Request β)
  alert : Option String
  refetch : Bool
  deriving DecidableEq, Repr

/-- The expression `text || fallback` for a text that may be missing: a missing text and
the empty text are falsy. -/
def orElse (text : Option String) (fallback : String) : String :=
  match text with
  | some t => if t = "" then fallback else t
  | none => fallback

end Api

/-! ## Inventory dashboard: the stock-update handlers (`src/pages/admin/inventory.js`) -/

namespace InventoryDashboard

open Api

/-- The React state `stockUpdate`: `operation` and `quantity`; the quantity input stores
`parseInt(e.target.value) || 0`, an integer. -/
structure StockUpdate where
  operation : String
  quantity : Int
  deriving DecidableEq, Repr

/-- A product of the inventory list. -/
structure Product where
  productId : String
  name : String
  stock : Option Int
  deriving DecidableEq, Repr

/-- The React state that the stock-update modal works on. -/
structure State where
  selectedProduct : Option Product
  stockUpdate : StockUpdate
  deriving DecidableEq, Repr

/-- The body of the request of `quickStockUpdate`. -/
structure QuickUpdate where
  operation : String
  quantity : Int
  reason : String
  deriving DecidableEq, Repr

/-- The quantity input's `onChange` (line 492): `parseInt(e.target.value) || 0`, given the
value of `parseInt` (`none` for `NaN`). -/
def onQuantityChange (st : State) (parsed : Option Int) : State :=
  { st with stockUpdate := { st.stockUpdate with quantity := JS.orZero parsed } }

/-- The handler `updateStock` (lines 79-94); `response` is the outcome of
`PATCH /api/inventory/:productId/stock`, which is sent with `stockUpdate` as it is. -/
def updateStock (st : State) (productId : String) (response : Except RequestError Unit) :
    Outcome State StockUpdate :=
  let request : Request StockUpdate :=
    { method := "PATCH", url := "/api/inventory/" ++ productId ++ "/stock",
      body := st.stockUpdate }
  match response with
  | .ok _ =>
    { state := { selectedProduct := none, stockUpdate := { operation := "add", quantity := 1 } },
      request := some request,
      alert := some "Stock updated successfully!",
      refetch := true }
  | .error error =>
    { state := st,
      request := some request,
      alert := some ("Error updating stock: " ++ error.message),
      refetch := false }

/-- The handler `quickStockUpdate` (lines 96-112). -/
def quickStockUpdate (st : State) (productId operation : String) (quantity : Int)
    (response : Except RequestError Unit) : Outcome State QuickUpdate :=
  let request : Request QuickUpdate :=
    { method := "PATCH", url := "/api/inventory/" ++ productId ++ "/stock",
      body := { operation := operation, quantity := quantity, reason := "quick_update" } }
  match response with
  | .ok _ => { state := st, request := some request, alert := none, refetch := true }
  | .error error =>
    { state := st,
      request := some request,
      alert := some ("Error updating stock: " ++ error.message),
      refetch := false }

end InventoryDashboard

/-! ## Fabric pages: the stock-update handlers -/

namespace FabricManagement

open Api

/-- The React state `stockUpdate` of a fabric page; the quantity is in meters. -/
structure StockUpdate (α : Type) where
  operation : String
  quantity : α
  deriving DecidableEq, Repr

/-- A fabric of the list. -/
structure Fabric (α : Type) where
  fabricId : String
  name : String
  currentStock : α
  deriving DecidableEq, Repr

/-- The React state that the stock-update modal of the fabric list works on. -/
structure State (α : Type) where
  showStockModal : Bool
  selectedFabric : Option (Fabric α)
  stockUpdate : StockUpdate α
  deriving DecidableEq, Repr

/-- The handler `handleUpdateStock` of the fabric list (`fabrics.js`, lines 119-136);
`response` is the outcome of `PATCH /api/fabrics/:fabricId/stock`, which is sent with
`stockUpdate` as it is.  Without a selected fabric, reading `selectedFabric.fabricId`
throws inside the `try` and the `catch` shows the generic message. -/
def handleUpdateStock {α : Type} [One α] (st : State α)
    (response : Except RequestError Unit) : Outcome (State α) (StockUpdate α) :=
  match st.selectedFabric with
  | none =>
    { state := st, request := none, alert := some (orElse none "Error updating stock"),
      refetch := false }
  | some selectedFabric =>
    let request : Request (StockUpdate α) :=
      { method := "PATCH", url := "/api/fabrics/" ++ selectedFabric.fabricId ++ "/stock",
        body := st.stockUpdate }
    match response with
    | .ok _ =>
      { state :=
          { showStockModal := false, selectedFabric := none,
            stockUpdate := { operation := "add", quantity := 1 } },
        request := some request,
        alert := some "Stock updated successfully!",
        refetch := true }
    | .error error =>
      { state := st,
        request := some request,
        alert := some (orElse error.error "Error updating stock"),
        refetch := false }

end FabricManagement

namespace FabricDetails

open Api

/-- The React state that the stock-update modal of the fabric detail page works on. -/
structure State (α : Type) where
  showStockModal : Bool
  stockUpdate : FabricManagement.StockUpdate α
  deriving DecidableEq, Repr

/-- The handler `handleUpdateStock` of the fabric detail page (`fabrics/[fabricId].js`,
lines 63-79); `fabricId` is the one of the route. -/
def handleUpdateStock {α : Type} [One α] (st : State α) (fabricId : String)
    (response : Except RequestError Unit) :
    Outcome (State α) (FabricManagement.StockUpdate α) :=
  let request : Request (FabricManagement.StockUpdate α) :=
    { method := "PATCH", url := "/api/fabrics/" ++ fabricId ++ "/stock",
      body := st.stockUpdate }
  match response with
  | .ok _ =>
    { state := { showStockModal := false, stockUpdate := { operation := "add", quantity := 1 } },
      request := some request,
      alert := some "Stock updated successfully!",
      refetch := true }
  | .error error =>
    { state := st,
      request := some request,
      alert := some (orElse error.error "Error updating stock"),
      refetch := false }

end FabricDetails

/-! ## Product page (`src/pages/p/[productId].js`)

The handlers below are reachable only from the rendered page, which is shown once a
product is loaded, so the state holds a product. -/

namespace ProductPage

open Api

/-- An entry of a product's `variantColors`. -/
structure VariantColor where
  productId : String
  color : String
  deriving DecidableEq, Repr

/-- A product as the page holds it; `variantColors` may be missing. -/
structure Product where
  productId : String
  name : String
  description : String
  category : String
  color : String
  work : String
  images : List String
  size : List String
  stock : Int
  variantColors : Option (List VariantColor)
  deriving DecidableEq, Repr

/-- The React state `variantManagement`. -/
structure VariantManagement where
  showAddVariant : Bool
  searchQuery : String
  searchResults : List Product
  searching : Bool
  addingVariant : Bool
  removingVariant : Bool
  deriving DecidableEq, Repr

/-- The React state of the page that the handlers of this part read or write. -/
structure State where
  product : Product
  isOwner : Bool
  showAuth : Bool
  selectedSize : String
  quantity : JS.Value
  inventoryLoading : Bool
  variantManagement : VariantManagement
  deriving DecidableEq, Repr

/-- The body of the stock request of `handleStockUpdate`. -/
structure StockPayload where
  operation : String
  quantity : Int
  size : String
  reason : String
  notes : String
  deriving DecidableEq, Repr

/-- The handler `handleStockUpdate` (lines 119-174); `response` is the outcome of
`PATCH /api/inventory/:productId/stock`, with the `message` of a success. -/
def handleStockUpdate (st : State) (operation : String)
    (response : Except RequestError (Option String)) : Outcome State StockPayload :=
  if !st.isOwner then
    { state := { st with showAuth := true }, request := none,
      alert := some "Please login as owner to manage inventory.", refetch := false }
  else if st.selectedSize = "" then
    { state := st, request := none, alert := some "Please select a size.", refetch := false }
  else
    match JS.Number st.quantity with
    | none =>
      { state := st, request := none, alert := some "Quantity must be greater than 0.",
        refetch := false }
    | some qty =>
      if qty = 0 ∨ qty ≤ 0 then
        { state := st, request := none, alert := some "Quantity must be greater than 0.",
          refetch := false }
      else
        let payload : StockPayload :=
          { operation := operation,
            quantity := qty,
            size := st.selectedSize,
            reason := if operation = "add" then "production" else "sale",
            notes :=
              if operation = "add" then
                "Produced " ++ toString qty ++ " pcs of size " ++ st.selectedSize
                  ++ " from QR page"
              else
                "Sold " ++ toString qty ++ " pcs of size " ++ st.selectedSize
                  ++ " from QR page" }
        let request : Request StockPayload :=
          { method := "PATCH", url := "/api/inventory/" ++ st.product.productId ++ "/stock",
            body := payload }
        match response with
        | .ok message =>
          { state := { st with inventoryLoading := false },
            request := some request,
            alert := some (orElse message "Stock updated successfully!"),
            refetch := true }
        | .error err =>
          let msg :=
            orElse err.error
              (match err.shortages with
               | some shortages => "\n".intercalate shortages
               | none => "Error updating stock")
          { state := { st with inventoryLoading := false },
            request := some request,
            alert := some msg,
            refetch := false }

/-- The handler `searchVariants` (lines 349-376); `response` is the outcome of
`GET /api/products/search/variants?q=..`.  A blank query returns at once. -/
def searchVariants (st : State) (response : Except RequestError (List Product)) :
    Outcome State Unit :=
  if JS.trim st.variantManagement.searchQuery.data = [] then
    { state := st, request := none, alert := none, refetch := false }
  else
    let request : Request Unit :=
      { method := "GET",
        url := "/api/products/search/variants?q=" ++ st.variantManagement.searchQuery,
        body := () }
    match response with
    | .ok data =>
      let currentVariants : List String :=
        match st.product.variantColors with
        | some variantColors => variantColors.map fun v => v.productId
        | none => []
      let filtered := data.filter fun p =>
        p.productId != st.product.productId && !currentVariants.contains p.productId
      { state :=
          { st with
            variantManagement :=
              { st.variantManagement with searchResults := filtered, searching := false } },
        request := some request, alert := none, refetch := false }
    | .error _ =>
      { state :=
          { st with variantManagement := { st.variantManagement with searching := false } },
        request := some request, alert := none, refetch := false }

/-- The `data` of a successful variant request, of which the page reads `variantColors`
(missing, or a list). -/
structure VariantResponse where
  variantColors : Option (List VariantColor)
  deriving DecidableEq, Repr

/-- The expression `response.data.variantColors || prev.variantColors`: a list, also the
empty one, is truthy. -/
def variantColorsOr (fromResponse previous : Option (List VariantColor)) :
    Option (List VariantColor) :=
  match fromResponse with
  | some list => some list
  | none => previous

/-- The body of the request of `addVariant`. -/
structure AddVariantBody where
  variantProductId : String
  deriving DecidableEq, Repr

/-- The handler `addVariant` (lines 379-411); `response` is the outcome of
`POST /api/products/:productId/variants`. -/
def addVariant (st : State) (variantProduct : Product)
    (response : Except RequestError VariantResponse) : Outcome State AddVariantBody :=
  let request : Request AddVariantBody :=
    { method := "POST", url := "/api/products/" ++ st.product.productId ++ "/variants",
      body := { variantProductId := variantProduct.productId } }
  match response with
  | .ok data =>
    { state :=
        { st with
          product :=
            { st.product with
              variantColors := variantColorsOr data.variantColors st.product.variantColors },
          variantManagement :=
            { st.variantManagement with
              searchResults := [], searchQuery := "", showAddVariant := false,
              addingVariant := false } },
      request := some request,
      alert := some "Variant added successfully!",
      refetch := false }
  | .error error =>
    { state :=
        { st with variantManagement := { st.variantManagement with addingVariant := false } },
      request := some request,
      alert := some (orElse error.error "Error adding variant"),
      refetch := false }

/-- The handler `removeVariant` (lines 414-442); `confirmed` is the answer of the confirm
dialog and `response` the outcome of
`DELETE /api/products/:productId/variants/:variantProductId`. -/
def removeVariant (st : State) (variantProductId : String) (confirmed : Bool)
    (response : Except RequestError VariantResponse) : Outcome State Unit :=
  if !confirmed then
    { state := st, request := none, alert := none, refetch := false }
  else
    let request : Request Unit :=
      { method := "DELETE",
        url := "/api/products/" ++ st.product.productId ++ "/variants/" ++ variantProductId,
        body := () }
    match response with
    | .ok data =>
      { state :=
          { st with
            product :=
              { st.product with
                variantColors := variantColorsOr data.variantColors st.product.variantColors },
            variantManagement := { st.variantManagement with removingVariant := false } },
        request := some request,
        alert := some "Variant removed successfully!",
        refetch := false }
    | .error error =>
      { state :=
          { st with
            variantManagement := { st.variantManagement with removingVariant := false } },
        request := some request,
        alert := some (orElse error.error "Error removing variant"),
        refetch := false }

end ProductPage

/-! ## Product form: colour variants (`src/pages/admin/products.js`) -/

namespace ProductManagement

/-- A product as a variant search returns it; `color` and `images` may be missing. -/
structure Candidate where
  productId : String
  name : String
  color : Option String
  images : Option (List String)
  deriving DecidableEq, Repr

/-- The handler `handleAddVariant` (lines 346-360): `prev.variants || []` and
`prev.variantColors || []` each get one more entry, built from the product. -/
def handleAddVariant (prev : FormData) (product : Candidate) : FormData :=
  { prev with
    variants := some (prev.variants.getD [] ++
      [{ productId := product.productId, color := product.color, name := product.name,
         images := product.images.getD [] }]),
    variantColors := some (prev.variantColors.getD [] ++
      [{ color := product.color, productId := product.productId }]) }

end ProductManagement

namespace ProductFormModal

open Api ProductManagement

/-- The form data handed to the modal together with the modal's own React state
`variantSearch` and `variantSearchResults`. -/
structure State where
  formData : FormData
  variantSearch : String
  variantSearchResults : List Candidate
  deriving DecidableEq, Repr

/-- The handler `searchVariantProducts` (lines 769-795); `response` is the outcome of
`GET /api/products/search/for-variants?q=..`. -/
def searchVariantProducts (st : State) (response : Except RequestError (List Candidate)) :
    Outcome State Unit :=
  if JS.trim st.variantSearch.data = [] then
    { state := st, request := none, alert := some "Please enter search term",
      refetch := false }
  else
    let request : Request Unit :=
      { method := "GET", url := "/api/products/search/for-variants?q=" ++ st.variantSearch,
        body := () }
    match response with
    | .ok data =>
      let currentProductId := st.formData.productId
      let existingVariantIds : List String :=
        match st.formData.variants with
        | some variants => variants.map fun v => v.productId
        | none => []
      let filteredResults := data.filter fun product =>
        product.productId != currentProductId &&
          !existingVariantIds.contains product.productId
      { state := { st with variantSearchResults := filteredResults },
        request := some request, alert := none, refetch := false }
    | .error _ =>
      { state := st, request := some request, alert := some "Error searching products",
        refetch := false }

/-- Whether `!product.color` holds: the colour is missing or empty. -/
def noColor (product : Candidate) : Bool :=
  match product.color with
  | some c => c = ""
  | none => true

/-- The handler `addProductAsVariant` (lines 798-810): the state after, and the alert shown
when the product is turned down. -/
def addProductAsVariant (st : State) (product : Candidate) : State × Option String :=
  if noColor product then
    (st, some "Selected product must have a color field")
  else
    ({ formData := handleAddVariant st.formData product,
       variantSearchResults := [],
       variantSearch := "" }, none)

end ProductFormModal

/-! ## Admin dashboard: search by image (`src/pages/admin/dashboard.js`) -/

namespace AdminDashboard

/-- A chosen image file. -/
structure File where
  name : String
  deriving DecidableEq, Repr

/-- The `data` of a successful image search. -/
structure SearchResult where
  found : Bool
  productIds : List String
  deriving DecidableEq, Repr

/-- The React state of the image search, with the local storage. -/
structure SearchState where
  searchImage : Option File
  searchPreview : String
  searchResult : Option SearchResult
  searchLoading : Bool
  searchError : String
  storage : LocalStorage
  deriving DecidableEq, Repr

/-- What a run of `handleSearchByImage` leaves behind: the state, whether the search
request was sent, the alert shown and the page the browser was sent to. -/
structure SearchOutcome where
  state : SearchState
  requested : Bool
  alert : Option String
  redirect : Option String
  deriving DecidableEq, Repr

/-- Whether `!token` holds for the stored token: it is missing or empty. -/
def noToken (storage : LocalStorage) : Bool :=
  match storage.ownerToken with
  | some token => token = ""
  | none => true

/-- The handler `handleSearchByImage` (lines 214-259); `response` is the outcome of
`POST /api/products/search-by-image`.  The `finally` block resets `searchLoading` on every
path through the `try`. -/
def handleSearchByImage (st : SearchState) (response : Except HttpError SearchResult) :
    SearchOutcome :=
  match st.searchImage with
  | none =>
    { state := { st with searchError := "Please select an image first." },
      requested := false, alert := none, redirect := none }
  | some _ =>
    if noToken st.storage then
      { state :=
          { st with
            searchLoading := false, searchError := "",
            storage := { st.storage with ownerToken := none } },
        requested := false,
        alert := some "Session expired. Please login again.",
        redirect := some "/admin/login" }
    else
      match response with
      | .ok data =>
        { state :=
            { st with searchLoading := false, searchError := "", searchResult := some data },
          requested := true, alert := none, redirect := none }
      | .error error =>
        if error.status = some 401 then
          { state :=
              { st with
                searchLoading := false, searchError := "",
                storage := { st.storage with ownerToken := none } },
            requested := true, alert := none, redirect := some "/admin/login" }
        else
          { state :=
              { st with
                searchLoading := false,
                searchError :=
                  Api.orElse error.message "Error while searching. Please try again." },
            requested := true, alert := none, redirect := none }

/-- The handler `handleClearSearch` (lines 261-272); it also empties the file input of the
page. -/
def handleClearSearch (st : SearchState) : SearchState :=
  { st with searchImage := none, searchPreview := "", searchResult := none, searchError := "" }

end AdminDashboard

/-! ## Predicates of the claims about variant lists -/

namespace ProductManagement

/-- The productIds of the form's `variants` list (of no entries when it is absent). -/
def variantIds (f : FormData) : List String :=
  (f.variants.getD []).map fun v => v.productId

/-- The productIds of the form's `variantColors` list (of no entries when it is absent). -/
def variantColorIds (f : FormData) : List String :=
  (f.variantColors.getD []).map fun v => v.productId

end ProductManagement

namespace ProductPage

/-- The productIds of the product's `variantColors` list (of no entries when it is
absent). -/
def variantColorIds (product : Product) : List String :=
  match product.variantColors with
  | some variantColors => variantColors.map fun v => v.productId
  | none => []

end ProductPage

/-! ## Session guard: `checkAuth` and the data fetches of the owner views -/

namespace AdminDashboard

/-- The function `checkAuth` of the dashboard (`dashboard.js`, lines 24-30): the page the
browser is sent to (`window.location.href`), if any. -/
def checkAuth (storage : LocalStorage) : Option String :=
  if noToken storage then some "/" else none

/-- What `fetchProducts` leaves behind: the state and the page the browser was sent to. -/
structure FetchOutcome where
  state : State
  redirect : Option String
  deriving DecidableEq, Repr

/-- The function `fetchProducts` of the dashboard (`dashboard.js`, lines 32-48); `response`
is the outcome of `GET /api/products`. -/
def fetchProducts (st : State) (response : Except HttpError (List Product)) : FetchOutcome :=
  match response with
  | .ok data => { state := { st with products := data }, redirect := none }
  | .error error =>
    if error.status = some 401 then
      { state := { st with storage := { st.storage with ownerToken := none } },
        redirect := some "/" }
    else { state := st, redirect := none }

end AdminDashboard

namespace ProductManagement

/-- The function `checkAuth` of the products view (`products.js`, lines 79-85): the route
pushed, if any. -/
def checkAuth (storage : AdminDashboard.LocalStorage) : Option String :=
  if AdminDashboard.noToken storage then some "/admin/login" else none

end ProductManagement

namespace FabricManagement

/-- The function `checkAuth` of the fabric list (`fabrics.js`, lines 58-64): the route
pushed, if any. -/
def checkAuth (storage : AdminDashboard.LocalStorage) : Option String :=
  if AdminDashboard.noToken storage then some "/admin/login" else none

end FabricManagement

namespace FabricDetails

open Api

/-- The function `checkAuth` of the fabric detail page (`fabrics/[fabricId].js`,
lines 24-30): the route pushed, if any. -/
def checkAuth (storage : AdminDashboard.LocalStorage) : Option String :=
  if AdminDashboard.noToken storage then some "/admin/login" else none

/-- What `fetchFabricDetails` leaves behind: the React state `fabric`, the local storage,
the alert shown and the route pushed. -/
structure FetchOutcome (α : Type) where
  fabric : Option (FabricManagement.Fabric α)
  storage : AdminDashboard.LocalStorage
  alert : Option String
  redirect : Option String
  deriving DecidableEq, Repr

/-- The function `fetchFabricDetails` (`fabrics/[fabricId].js`, lines 32-49); `response` is
the outcome of `GET /api/fabrics/:fabricId`.  The `catch` block looks at the status 404
only. -/
def fetchFabricDetails {α : Type} (fabric : Option (FabricManagement.Fabric α))
    (storage : AdminDashboard.LocalStorage)
    (response : Except RequestError (FabricManagement.Fabric α)) : FetchOutcome α :=
  match response with
  | .ok data => { fabric := some data, storage := storage, alert := none, redirect := none }
  | .error error =>
    if error.status = some 404 then
      { fabric := fabric, storage := storage, alert := some "Fabric not found",
        redirect := some "/admin/fabrics" }
    else { fabric := fabric, storage := storage, alert := none, redirect := none }

end FabricDetails

namespace InventoryDashboard

open Api

/-- The function `checkAuth` of the inventory dashboard (`inventory.js`, lines 21-27): the
route pushed, if any. -/
def checkAuth (storage : AdminDashboard.LocalStorage) : Option String :=
  if AdminDashboard.noToken storage then some "/admin/login" else none

/-- The inventory overview. -/
structure Overview where
  totalProducts : Int
  totalItems : Int
  outOfStock : Int
  lowStock : Int
  deriving DecidableEq, Repr

/-- The low-stock alerts. -/
structure Alerts where
  critical : List Product
  warnings : List Product
  deriving DecidableEq, Repr

/-- The React state that `fetchInventoryData` writes. -/
structure Data where
  overview : Option Overview
  products : List Product
  lowStockAlerts : Alerts
  error : String
  deriving DecidableEq, Repr

/-- What `fetchInventoryData` leaves behind: the data, the local storage and the route
pushed. -/
structure FetchOutcome where
  data : Data
  storage : AdminDashboard.LocalStorage
  redirect : Option String
  deriving DecidableEq, Repr

/-- The function `fetchInventoryData` (`inventory.js`, lines 29-77), which writes all four
state variables of `Data`.  Each of the three
requests carries its own `.catch`, which turns a failure into a default answer
(`null`, `[]`, no alerts), so no failure of a request reaches the `catch` block of the
function, the one that looks for the status 401. -/
def fetchInventoryData (storage : AdminDashboard.LocalStorage)
    (overviewRes : Except RequestError Overview)
    (productsRes : Except RequestError (List Product))
    (alertsRes : Except RequestError Alerts) : FetchOutcome :=
  let overview : Option Overview :=
    match overviewRes with
    | .ok d => some d
    | .error _ => none
  let products : List Product :=
    match productsRes with
    | .ok d => d
    | .error _ => []
  let alerts : Alerts :=
    match alertsRes with
    | .ok d => d
    | .error _ => { critical := [], warnings := [] }
  { data :=
      { overview := overview, products := products, lowStockAlerts := alerts, error := "" },
    storage := storage,
    redirect := none }

end InventoryDashboard

/-! ## Product form: fabrics of a product (`src/pages/admin/products.js`) -/

namespace ProductManagement

/-- A fabric of the fabric list, as the product form reads it. -/
structure Fabric where
  fabricId : String
  name : String
  currentStock : ℚ
  costPerMeter : ℚ
  deriving DecidableEq, Repr

/-- The function `addFabricToProduct` (lines 316-330).  `metersUsed` is the value of the
meters input, a number input: empty (`none`, which `> 0` and `parseFloat` do not accept) or
a number. -/
def addFabricToProduct (prev : FormData) (fabrics : List Fabric) (fabricId : String)
    (metersUsed : Option ℚ) : FormData :=
  match fabrics.find? (fun f => f.fabricId == fabricId), metersUsed with
  | some fabric, some meters =>
    if meters > 0 then
      { prev with
        fabricUsed := prev.fabricUsed ++
          [{ fabricId := fabric.fabricId, fabricName := fabric.name, metersUsed := meters,
             costPerMeter := fabric.costPerMeter,
             totalCost := meters * fabric.costPerMeter }] }
    else prev
  | _, _ => prev

/-- The handler `handleRemoveVariant` (lines 362-368).  Both lists are filtered by
position; on a form without one of the lists `.filter` is called on `undefined` and the
update throws (`none`). -/
def handleRemoveVariant (prev : FormData) (index : Nat) : Option FormData :=
  match prev.variants, prev.variantColors with
  | some variants, some variantColors =>
    some { prev with
           variants := some (variants.eraseIdx index),
           variantColors := some (variantColors.eraseIdx index) }
  | _, _ => none

/-- The claim's relation between the two variant lists: both are there, and they have the
same productId and colour at every position (so also the same length). -/
def variantsInSync (f : FormData) : Prop :=
  match f.variants, f.variantColors with
  | some variants, some variantColors =>
    variants.map (fun v => (v.productId, v.color))
      = variantColors.map (fun v => (v.productId, v.color))
  | _, _ => False

instance (f : FormData) : Decidable (variantsInSync f) := by
  unfold variantsInSync; split <;> infer_instance

end ProductManagement

namespace ProductFormModal

open ProductManagement

/-- The form data and fabric list handed to the modal together with the modal's own React
state `selectedFabric` and `fabricMeters`.  The meters input is a number input, whose value
is empty (`none`) or a number. -/
structure FabricState where
  formData : FormData
  fabrics : List Fabric
  selectedFabric : String
  fabricMeters : Option ℚ
  deriving DecidableEq, Repr

/-- The alerts of `handleAddFabricClick`. -/
inductive FabricAlert where
  | selectFabric
  | invalidMeters
  | fabricNotFound
  | notEnoughStock
  | alreadyAdded
  | added
  deriving DecidableEq, Repr

/-- The handler `handleAddFabricClick` (lines 709-759): the state after and the alert
shown. -/
def handleAddFabricClick (st : FabricState) : FabricState × FabricAlert :=
  if st.selectedFabric = "" then (st, .selectFabric)
  else
    match st.fabricMeters with
    | none => (st, .invalidMeters)
    | some meters =>
      if meters ≤ 0 then (st, .invalidMeters)
      else
        match st.fabrics.find? fun f => f.fabricId == st.selectedFabric with
        | none => (st, .fabricNotFound)
        | some fabric =>
          if fabric.currentStock < meters then (st, .notEnoughStock)
          else
            match st.formData.fabricUsed.find? fun f => f.fabricId == st.selectedFabric with
            | some _ => (st, .alreadyAdded)
            | none =>
              ({ st with
                 formData :=
                   addFabricToProduct st.formData st.fabrics st.selectedFabric st.fabricMeters,
                 selectedFabric := "",
                 fabricMeters := none }, .added)

end ProductFormModal

/-! ## Product page: the zoom level of the image modal

The zoom level is not an integer.  The handlers only add or subtract a step and clamp, so
they are embedded over an arbitrary linearly ordered number type `α` with the decimal
constants of the code; the rationals are an instance. -/

namespace ProductPage

/-- The state update of `handleZoom` (lines 53-58). -/
def handleZoom {α : Type} [LinearOrder α] [Add α] [Sub α] [OfScientific α] [OfNat α 3]
    (direction : String) (prev : α) : α :=
  let newZoom := if direction = "in" then prev + 0.2 else prev - 0.2
  min (max newZoom 0.5) 3

/-- The value set by `resetZoom` (lines 60-62). -/
def resetZoom {α : Type} [OfNat α 1] : α := 1

/-- A step on the zoom level: a call of `handleZoom` with its direction, or of
`resetZoom`. -/
inductive ZoomStep where
  | handleZoom (direction : String)
  | resetZoom
  deriving DecidableEq, Repr

/-- The zoom level after one step. -/
def zoomStep {α : Type} [LinearOrder α] [Add α] [Sub α] [OfScientific α] [OfNat α 3]
    [OfNat α 1] (zoomLevel : α) (step : ZoomStep) : α :=
  match step with
  | .handleZoom direction => handleZoom direction zoomLevel
  | .resetZoom => resetZoom

/-- The zoom level after a sequence of steps, from the initial level `useState(1)`. -/
def zoomAfter {α : Type} [LinearOrder α] [Add α] [Sub α] [OfScientific α] [OfNat α 3]
    [OfNat α 1] (steps : List ZoomStep) : α :=
  steps.foldl zoomStep 1

end ProductPage

/-! ## Predicates of the claims about the fabrics and sizes of the product form -/

namespace ProductFormModal

open ProductManagement

/-- The claim's condition for `handleAddFabricClick` to add a fabric: a fabric is selected,
the entered meters are greater than 0, the selected fabric is found in the fabric list, its
`currentStock` is at least the entered meters, and no entry of `fabricUsed` has its
fabricId. -/
def canAddFabric (st : FabricState) : Prop :=
  st.selectedFabric ≠ "" ∧
  ∃ meters fabric, st.fabricMeters = some meters ∧ 0 < meters ∧
    st.fabrics.find? (fun f => f.fabricId == st.selectedFabric) = some fabric ∧
    meters ≤ fabric.currentStock ∧
    ∀ f ∈ st.formData.fabricUsed, f.fabricId ≠ st.selectedFabric

end ProductFormModal

/-! ## Theorems -/

/-! ### The JSON round trip -/

namespace JSON

open AdminDashboard

theorem hexValue_hexDigit : ∀ n, n < 16 → hexValue (hexDigit n) = some n := by decide

theorem char_of_small (c : Char) :
    Char.ofNat (((0 * 16 + 0) * 16 + c.toNat / 16) * 16 + c.toNat % 16) = c := by
  have : ((0 * 16 + 0) * 16 + c.toNat / 16) * 16 + c.toNat % 16 = c.toNat := by omega
  rw [this]
  exact Char.ofNat_toNat c

theorem readString_quote (rest : List Char) : readString (quoteChar :: rest) = some ([], rest) := by
  rw [readString.eq_def]
  simp

theorem readString_backslash_simple (e ch : Char) (rest : List Char) (he : e ≠ 'u')
    (h : unescapeSimple e = some ch) :
    readString (backslash :: e :: rest) = (readString rest).map fun p => (ch :: p.1, p.2) := by
  have hb : backslash ≠ quoteChar := by decide
  rw [readString.eq_def]
  simp [hb, he, h]

theorem readString_backslash_u (a b c d : Char) (x y z w : Nat) (rest : List Char)
    (ha : hexValue a = some x) (hb : hexValue b = some y) (hc : hexValue c = some z)
    (hd : hexValue d = some w) :
    readString (backslash :: 'u' :: a :: b :: c :: d :: rest) =
      (readString rest).map
        fun p => (Char.ofNat (((x * 16 + y) * 16 + z) * 16 + w) :: p.1, p.2) := by
  have hq : backslash ≠ quoteChar := by decide
  rw [readString.eq_def]
  simp [hq, ha, hb, hc, hd]

theorem readString_plain (c : Char) (rest : List Char) (h1 : c ≠ quoteChar)
    (h2 : c ≠ backslash) (h3 : ¬ c.toNat < 32) :
    readString (c :: rest) = (readString rest).map fun p => (c :: p.1, p.2) := by
  rw [readString.eq_def]
  simp [h1, h2, h3]

theorem char_eq_of_toNat (c : Char) (n : Nat) (h : c.toNat = n) : c = Char.ofNat n := by
  rw [← h, Char.ofNat_toNat]

theorem readString_escapeChar (c : Char) (rest : List Char) :
    readString (escapeChar c ++ rest) = (readString rest).map fun p => (c :: p.1, p.2) := by
  unfold escapeChar
  split_ifs with h1 h2 h3 h4 h5 h6 h7 h8
  · subst h1
    exact readString_backslash_simple _ _ _ (by decide) (by decide)
  · subst h2
    exact readString_backslash_simple _ _ _ (by decide) (by decide)
  · have := char_eq_of_toNat c 8 h3
    subst this
    exact readString_backslash_simple _ _ _ (by decide) (by decide)
  · have := char_eq_of_toNat c 12 h4
    subst this
    exact readString_backslash_simple _ _ _ (by decide) (by decide)
  · have := char_eq_of_toNat c 10 h5
    subst this
    exact readString_backslash_simple _ _ _ (by decide) (by decide)
  · have := char_eq_of_toNat c 13 h6
    subst this
    exact readString_backslash_simple _ _ _ (by decide) (by decide)
  · have := char_eq_of_toNat c 9 h7
    subst this
    exact readString_backslash_simple _ _ _ (by decide) (by decide)
  · have e1 := hexValue_hexDigit (c.toNat / 16) (by omega)
    have e2 := hexValue_hexDigit (c.toNat % 16) (by omega)
    have e0 : hexValue '0' = some 0 := by decide
    have := readString_backslash_u '0' '0' _ _ 0 0 _ _ rest e0 e0 e1 e2
    rw [char_of_small] at this
    exact this
  · exact readString_plain c rest h1 h2 h8

theorem readString_escape (s rest : List Char) :
    readString (escape s ++ quoteChar :: rest) = some (s, rest) := by
  induction s with
  | nil => exact readString_quote rest
  | cons c cs ih =>
    simp only [escape, List.append_assoc]
    rw [readString_escapeChar, ih]
    rfl

theorem readQuoted_quote (s : String) (rest : List Char) :
    readQuoted (quote s ++ rest) = some (s, rest) := by
  simp only [quote, List.cons_append, List.append_assoc, List.singleton_append, readQuoted]
  simp [readString_escape]

theorem expect_append (lit rest : List Char) : expect lit (lit ++ rest) = some rest := by
  induction lit with
  | nil => cases rest <;> rfl
  | cons l ls ih => simp [expect, ih]

theorem readBool_boolText (b : Bool) (rest : List Char) :
    readBool (boolText b ++ rest) = some (b, rest) := by
  cases b
  · have h : expect "true".data ("false".data ++ rest) = none := by
      simp [expect]
    simp only [boolText, readBool, Bool.false_eq_true, if_false, h, expect_append]
  · simp only [boolText, readBool, if_true, expect_append]

theorem readEntry_stringifyEntry (e : QRCodeEntry) (rest : List Char) :
    readEntry (stringifyEntry e ++ rest) = some (e, rest) := by
  simp only [stringifyEntry, readEntry, List.append_assoc, expect_append, readQuoted_quote,
    readBool_boolText, Option.some_bind]

theorem length_lt_stringifyTail (es : List QRCodeEntry) (rest : List Char) :
    es.length < (stringifyTail es ++ rest).length := by
  induction es with
  | nil => simp [stringifyTail]
  | cons e es ih =>
    simp only [stringifyTail, List.cons_append, List.append_assoc, List.length_cons,
      List.length_append] at ih ⊢
    omega

theorem readTail_stringifyTail (es : List QRCodeEntry) (rest : List Char) (fuel : Nat)
    (h : es.length < fuel) :
    readTail fuel (stringifyTail es ++ rest) = some (es, rest) := by
  induction es generalizing fuel with
  | nil =>
    cases fuel with
    | zero => omega
    | succ n => simp [stringifyTail, readTail]
  | cons e es ih =>
    cases fuel with
    | zero => omega
    | succ n =>
      have hn : es.length < n := by simpa using h
      have hc : ¬ (',' = ']') := by decide
      simp [stringifyTail, readTail, hc, readEntry_stringifyEntry, ih n hn]

theorem parse_stringify (qrCodes : List QRCodeEntry) :
    parse (stringify qrCodes) = some qrCodes := by
  cases qrCodes with
  | nil => simp [stringify, parse]
  | cons e es =>
    have hne : ∃ c r, stringifyEntry e ++ stringifyTail es = c :: r ∧ c ≠ ']' := by
      refine ⟨_, _, rfl, ?_⟩
      decide
    obtain ⟨c, r, hcr, hc⟩ := hne
    have hlen : es.length < (stringifyEntry e ++ stringifyTail es).length := by
      have := length_lt_stringifyTail es []
      simp only [List.append_nil] at this
      simp only [List.length_append]
      omega
    have h1 := readEntry_stringifyEntry e (stringifyTail es)
    have h2 := readTail_stringifyTail es [] _ hlen
    simp only [List.append_nil] at h2
    simp only [stringify, parse]
    rw [hcr] at h1 h2 ⊢
    simp only [List.length_cons] at h2
    simp [hc, h1, h2]

theorem stringify_ne_empty (qrCodes : List QRCodeEntry) : stringify qrCodes ≠ "" := by
  intro h
  have h2 := congrArg String.length h
  cases qrCodes <;> simp [stringify, String.length] at h2

end JSON

/-! ### The product form -/

namespace ProductManagement

open JS

theorem orZero_number_num (n : Int) : orZero (Number (.num n)) = n := by
  simp only [Number, orZero]
  split_ifs with h
  · exact h.symm
  · rfl

theorem foldl_stock (l : List SizeStock) (acc : Int) :
    l.foldl (fun sum s => sum + orZero (Number (.num s.stock))) acc
      = acc + (l.map fun s => s.stock).sum := by
  induction l generalizing acc with
  | nil => simp
  | cons s rest ih =>
    simp only [List.foldl_cons, List.map_cons, List.sum_cons]
    rw [ih, orZero_number_num]
    omega

theorem stockIsSum_handleSizeStockChange (prev : FormData) (index : Nat) (value : Value)
    (h : stockIsSum prev) : stockIsSum (handleSizeStockChange prev index value) := by
  unfold handleSizeStockChange
  cases hs : prev.size[index]? with
  | none => simpa only [hs] using h
  | some sizeLabel =>
    by_cases hl : sizeLabel = ""
    · simpa only [hs, hl, if_true] using h
    · simp [hs, hl, stockIsSum, foldl_stock]

end ProductManagement

/-! ### The QR list and its local-storage fallback -/

namespace AdminDashboard

theorem filter_eq_of_filter_ne (l : List QRCodeEntry) (productId : String) :
    (l.filter fun qr => qr.productId != productId).filter
      (fun qr => qr.productId == productId) = [] := by
  induction l with
  | nil => rfl
  | cons a l ih =>
    by_cases h : a.productId = productId
    · simp [List.filter_cons, h, ih]
    · simp [List.filter_cons, h, ih]

theorem loadSavedQRCodesFromStorage_of_saved (st : State) (list : List QRCodeEntry)
    (h : st.storage.generatedQRCodes = some (JSON.stringify list)) :
    loadSavedQRCodesFromStorage st = { st with qrCodes := list } := by
  simp only [loadSavedQRCodesFromStorage, h, JSON.stringify_ne_empty, if_false,
    JSON.parse_stringify]

end AdminDashboard

/-! ### The claims -/


/-- C1: in the inventory stock-update modal, for a non-negative current stock `s` and a
quantity `q > 0`, the previewed new stock is `s + q` for `add`, `max 0 (s - q)` for
`subtract`, and `q` for `set`, the last whatever the current stock is. -/
theorem InventoryDashboard.newStock_spec (s q : Int) (_hs : 0 ≤ s) (_hq : 0 < q) :
    InventoryDashboard.newStock "add" (some s) q = s + q ∧
    InventoryDashboard.newStock "subtract" (some s) q = max 0 (s - q) ∧
    ∀ stock : Option Int, InventoryDashboard.newStock "set" stock q = q := by
  have h0 : InventoryDashboard.stockOrZero (some s) = s := by
    simp only [InventoryDashboard.stockOrZero]
    split_ifs with h
    · exact h.symm
    · rfl
  refine ⟨?_, ?_, ?_⟩
  · simp [InventoryDashboard.newStock, h0]
  · simp [InventoryDashboard.newStock, h0]
  · intro stock
    simp [InventoryDashboard.newStock]

theorem InventoryDashboard.newStock_spec_witness :
    (0 : Int) ≤ 3 ∧ (0 : Int) < 2 ∧
    (InventoryDashboard.newStock "add" (some 3) 2 = 3 + 2 ∧
     InventoryDashboard.newStock "subtract" (some 3) 2 = max 0 (3 - 2) ∧
     ∀ stock : Option Int, InventoryDashboard.newStock "set" stock 2 = 2) :=
  ⟨by decide, by decide, InventoryDashboard.newStock_spec 3 2 (by decide) (by decide)⟩

/-- C2: in both fabric stock-update modals, for a non-negative current stock and a
quantity `≥ 0`, the value previewed for `subtract` is `max 0 (currentStock - quantity)`
and is never negative; with current stock 20 and quantity 25 it is 0. -/
theorem fabric_subtract_clamped (α : Type) [LinearOrder α] [Zero α] [Add α] [Sub α]
    (currentStock quantity : α) (_hs : 0 ≤ currentStock) (_hq : 0 ≤ quantity) :
    (FabricManagement.newStock "subtract" currentStock quantity
        = max 0 (currentStock - quantity) ∧
      0 ≤ FabricManagement.newStock "subtract" currentStock quantity) ∧
    (FabricDetails.newStock "subtract" currentStock quantity
        = max 0 (currentStock - quantity) ∧
      0 ≤ FabricDetails.newStock "subtract" currentStock quantity) ∧
    FabricManagement.newStock "subtract" (20 : ℚ) 25 = 0 ∧
    FabricDetails.newStock "subtract" (20 : ℚ) 25 = 0 := by
  have hne : ¬ ("subtract" = "add") := by decide
  refine ⟨?_, ?_, ?_, ?_⟩
  · simp [FabricManagement.newStock, hne]
  · simp [FabricDetails.newStock, hne]
  · norm_num [FabricManagement.newStock, hne]
  · norm_num [FabricDetails.newStock, hne]

theorem fabric_subtract_clamped_witness :
    (0 : ℚ) ≤ 20 ∧ (0 : ℚ) ≤ 25 ∧
    ((FabricManagement.newStock "subtract" (20 : ℚ) 25 = max 0 (20 - 25) ∧
      0 ≤ FabricManagement.newStock "subtract" (20 : ℚ) 25) ∧
    (FabricDetails.newStock "subtract" (20 : ℚ) 25 = max 0 (20 - 25) ∧
      0 ≤ FabricDetails.newStock "subtract" (20 : ℚ) 25) ∧
    FabricManagement.newStock "subtract" (20 : ℚ) 25 = 0 ∧
    FabricDetails.newStock "subtract" (20 : ℚ) 25 = 0) :=
  ⟨by norm_num, by norm_num,
    fabric_subtract_clamped ℚ 20 25 (by norm_num) (by norm_num)⟩

/-- C3: when the size list has a non-empty label at `index`, `handleSizeStockChange`
leaves in `stock` the sum of the stock counts of the resulting `sizeStock` list; with
`sizeStock` `[(S,2),(M,3)]` and `M` edited to 5 the stock is 7. -/
theorem ProductManagement.handleSizeStockChange_total (prev : ProductManagement.FormData)
    (index : Nat) (value : JS.Value) (sizeLabel : String)
    (hlabel : prev.size[index]? = some sizeLabel) (hne : sizeLabel ≠ "") :
    (ProductManagement.handleSizeStockChange prev index value).stock
      = .num ((ProductManagement.handleSizeStockChange prev index value).sizeStock.map
          fun s => s.stock).sum ∧
    (ProductManagement.handleSizeStockChange
        { ProductManagement.getInitialFormData with
          size := ["S", "M"], sizeStock := [⟨"S", 2⟩, ⟨"M", 3⟩], stock := .num 5 }
        1 (.str "5")).stock = .num 7 := by
  refine ⟨?_, by decide⟩
  unfold ProductManagement.handleSizeStockChange
  simp [hlabel, hne, ProductManagement.foldl_stock]

theorem ProductManagement.handleSizeStockChange_total_witness :
    (ProductManagement.handleSizeStockChange
        { ProductManagement.getInitialFormData with
          size := ["S", "M"], sizeStock := [⟨"S", 2⟩, ⟨"M", 3⟩], stock := .num 5 }
        1 (.str "5")).sizeStock = [⟨"S", 2⟩, ⟨"M", 5⟩] ∧
    (ProductManagement.handleSizeStockChange
        { ProductManagement.getInitialFormData with
          size := ["S", "M"], sizeStock := [⟨"S", 2⟩, ⟨"M", 3⟩], stock := .num 5 }
        1 (.str "5")).stock = .num 7 :=
  ⟨by decide,
   (ProductManagement.handleSizeStockChange_total
      { ProductManagement.getInitialFormData with
        size := ["S", "M"], sizeStock := [⟨"S", 2⟩, ⟨"M", 3⟩], stock := .num 5 }
      1 (.str "5") "M" (by decide) (by decide)).2⟩

/-- C4, as the claim states it, fails: typing into the stock input (`handleInputChange`
with the name `stock`) on a form whose stock 2 is the sum of its size stocks leaves the
text `5` in `stock`, which is not the sum 2, also not after `Number`. -/
theorem ProductManagement.handleInputChange_stock_breaks_sum :
    ProductManagement.stockIsSum
      { ProductManagement.getInitialFormData with
        size := ["S"], sizeStock := [⟨"S", 2⟩], stock := .num 2 } ∧
    ¬ ProductManagement.stockIsSum
      (ProductManagement.handleInputChange
        { ProductManagement.getInitialFormData with
          size := ["S"], sizeStock := [⟨"S", 2⟩], stock := .num 2 } .stock "5") ∧
    JS.Number (ProductManagement.handleInputChange
        { ProductManagement.getInitialFormData with
          size := ["S"], sizeStock := [⟨"S", 2⟩], stock := .num 2 } .stock "5").stock
      = some 5 := by
  decide

/-- C4, amended: "`stock` is the sum of `sizeStock[*].stock`" holds for the initial form
data and is preserved by `handleSizeStockChange`, `handleArrayChange`, `addArrayField`
and `removeArrayField` for every argument, and by `handleInputChange` for every input
other than the stock input. -/
theorem ProductManagement.stockIsSum_preserved (prev : ProductManagement.FormData)
    (h : ProductManagement.stockIsSum prev) :
    ProductManagement.stockIsSum ProductManagement.getInitialFormData ∧
    (∀ index value,
      ProductManagement.stockIsSum (ProductManagement.handleSizeStockChange prev index value)) ∧
    (∀ field index value,
      ProductManagement.stockIsSum (ProductManagement.handleArrayChange prev field index value)) ∧
    (∀ field, ProductManagement.stockIsSum (ProductManagement.addArrayField prev field)) ∧
    (∀ field index,
      ProductManagement.stockIsSum (ProductManagement.removeArrayField prev field index)) ∧
    (∀ input value, input ≠ ProductManagement.InputName.stock →
      ProductManagement.stockIsSum (ProductManagement.handleInputChange prev input value)) := by
  refine ⟨by decide, ?_, ?_, ?_, ?_, ?_⟩
  · intro index value
    exact ProductManagement.stockIsSum_handleSizeStockChange prev index value h
  · intro field index value
    cases field <;> exact h
  · intro field
    cases field <;> exact h
  · intro field index
    cases field <;> exact h
  · intro input value hinput
    cases input <;> first | exact h | exact absurd rfl hinput

theorem ProductManagement.stockIsSum_preserved_witness :
    ProductManagement.stockIsSum
      (ProductManagement.handleSizeStockChange
        { ProductManagement.getInitialFormData with
          size := ["S"], sizeStock := [⟨"S", 2⟩], stock := .num 2 } 0 (.str "4")) ∧
    ProductManagement.stockIsSum
      (ProductManagement.removeArrayField
        { ProductManagement.getInitialFormData with
          size := ["S"], sizeStock := [⟨"S", 2⟩], stock := .num 2 } .size 0) :=
  ⟨(ProductManagement.stockIsSum_preserved
      { ProductManagement.getInitialFormData with
        size := ["S"], sizeStock := [⟨"S", 2⟩], stock := .num 2 } (by decide)).2.1 0 (.str "4"),
   (ProductManagement.stockIsSum_preserved
      { ProductManagement.getInitialFormData with
        size := ["S"], sizeStock := [⟨"S", 2⟩], stock := .num 2 } (by decide)).2.2.2.2.1 .size 0⟩

/-- C5, as the claim states it, fails: the new entry carries the `productId` of the
backend's response, so after `generateQRCode("A", ..)` answered with an entry for `B` the
list holds no entry for `A` (and one for `B`). -/
theorem AdminDashboard.generateQRCode_other_productId :
    ((AdminDashboard.generateQRCode
        { products := [], qrCodes := [], storage := ⟨none, none⟩ } "A" "Kurta" "t"
        (.ok ⟨"B", "img", false, "", ""⟩)).qrCodes.filter
      fun qr => qr.productId == "A") = [] ∧
    (AdminDashboard.generateQRCode
        { products := [], qrCodes := [], storage := ⟨none, none⟩ } "A" "Kurta" "t"
        (.ok ⟨"B", "img", false, "", ""⟩)).qrCodes = [⟨"B", "img", false, "Kurta", "t"⟩] := by
  decide

/-- C5, amended: after a successful `generateQRCode(p, name)` whose response carries the
productId `p`, the entries of the resulting list with productId `p` are exactly one, the
newly generated entry (the response with `productName` and `generatedAt` set), however
many entries for `p` the list held before. -/
theorem AdminDashboard.generateQRCode_unique (st : AdminDashboard.State)
    (productId productName now : String) (data : AdminDashboard.QRCodeEntry)
    (hdata : data.productId = productId) :
    ((AdminDashboard.generateQRCode st productId productName now (.ok data)).qrCodes.filter
      fun qr => qr.productId == productId)
      = [{ data with productName := productName, generatedAt := now }] := by
  simp [AdminDashboard.generateQRCode, List.filter_append,
    AdminDashboard.filter_eq_of_filter_ne, hdata]

theorem AdminDashboard.generateQRCode_unique_witness :
    ((AdminDashboard.generateQRCode
        { products := [],
          qrCodes := [⟨"A", "old1", false, "n", "t0"⟩, ⟨"B", "b", false, "n", "t0"⟩,
            ⟨"A", "old2", true, "n", "t1"⟩],
          storage := ⟨none, none⟩ } "A" "Kurta" "t2"
        (.ok ⟨"A", "img", false, "", ""⟩)).qrCodes.filter
      fun qr => qr.productId == "A") = [⟨"A", "img", false, "Kurta", "t2"⟩] :=
  AdminDashboard.generateQRCode_unique _ "A" "Kurta" "t2" ⟨"A", "img", false, "", ""⟩ rfl

/-- C6: after a successful `generateQRCode` the text in local storage is the
`JSON.stringify` of the list now in memory, and a later load whose backend fetch fails
(on a freshly mounted dashboard with any products and any list in memory, over the same
local storage) ends with exactly that list in memory. -/
theorem AdminDashboard.generate_then_fallback_load (st : AdminDashboard.State)
    (productId productName now : String) (data : AdminDashboard.QRCodeEntry)
    (products : List AdminDashboard.Product) (qrCodes : List AdminDashboard.QRCodeEntry)
    (error : AdminDashboard.HttpError) :
    (AdminDashboard.generateQRCode st productId productName now (.ok data)).storage.generatedQRCodes
      = some (JSON.stringify
          (AdminDashboard.generateQRCode st productId productName now (.ok data)).qrCodes) ∧
    (AdminDashboard.loadSavedQRCodesFromDB
        { products := products, qrCodes := qrCodes,
          storage :=
            (AdminDashboard.generateQRCode st productId productName now (.ok data)).storage }
        (.error error)).qrCodes
      = (AdminDashboard.generateQRCode st productId productName now (.ok data)).qrCodes := by
  have hsave :
      (AdminDashboard.generateQRCode st productId productName now (.ok data)).storage.generatedQRCodes
        = some (JSON.stringify
          (AdminDashboard.generateQRCode st productId productName now (.ok data)).qrCodes) := by
    simp [AdminDashboard.generateQRCode, AdminDashboard.saveQRCodesToStorage]
  refine ⟨hsave, ?_⟩
  have hload := AdminDashboard.loadSavedQRCodesFromStorage_of_saved
    { products := products, qrCodes := qrCodes,
      storage := (AdminDashboard.generateQRCode st productId productName now (.ok data)).storage }
    _ hsave
  simp only [AdminDashboard.loadSavedQRCodesFromDB]
  rw [hload]

/-- C7: after a confirmed `clearAllQRCodes`, with the backend delete succeeding or not,
the list in memory is empty and the local-storage item is removed; a later load whose
backend fetch fails, on this state or on a freshly mounted dashboard over the same local
storage, ends with the empty list. -/
theorem AdminDashboard.clearAllQRCodes_empties (st : AdminDashboard.State)
    (response : Except AdminDashboard.HttpError Unit)
    (products : List AdminDashboard.Product) (error : AdminDashboard.HttpError) :
    (AdminDashboard.clearAllQRCodes st true response).qrCodes = [] ∧
    (AdminDashboard.clearAllQRCodes st true response).storage.generatedQRCodes = none ∧
    (AdminDashboard.loadSavedQRCodesFromDB
      (AdminDashboard.clearAllQRCodes st true response) (.error error)).qrCodes = [] ∧
    (AdminDashboard.loadSavedQRCodesFromDB
        { products := products, qrCodes := [],
          storage := (AdminDashboard.clearAllQRCodes st true response).storage }
        (.error error)).qrCodes = [] := by
  simp [AdminDashboard.clearAllQRCodes, AdminDashboard.loadSavedQRCodesFromDB,
    AdminDashboard.loadSavedQRCodesFromStorage]

/-- C8 fails on the code: `deleteQRCode("A")` run when the list in memory is `[A, B]`
while the handler still holds the list `[A]` of the render that created it leaves `[B]`
in memory and writes the empty list to local storage. -/
theorem AdminDashboard.deleteQRCode_stale_snapshot :
    (AdminDashboard.deleteQRCode
        { products := [],
          qrCodes := [⟨"A", "a", false, "n", "t"⟩, ⟨"B", "b", false, "n", "t"⟩],
          storage := ⟨none, none⟩ }
        [⟨"A", "a", false, "n", "t"⟩] "A" true (.ok ())).qrCodes
      = [⟨"B", "b", false, "n", "t"⟩] ∧
    (AdminDashboard.deleteQRCode
        { products := [],
          qrCodes := [⟨"A", "a", false, "n", "t"⟩, ⟨"B", "b", false, "n", "t"⟩],
          storage := ⟨none, none⟩ }
        [⟨"A", "a", false, "n", "t"⟩] "A" true (.ok ())).storage.generatedQRCodes
      = some "[]" ∧
    JSON.parse "[]" = some [] ∧
    JSON.stringify [⟨"B", "b", false, "n", "t"⟩] ≠ "[]" := by
  decide

/-- C9, as the claim states it, fails: with no products loaded, a backend response
holding an entry for `X` puts that entry, named `X`, in the list. -/
theorem AdminDashboard.generateAllQRCodes_keeps_unknown :
    (AdminDashboard.generateAllQRCodes
        { products := [], qrCodes := [], storage := ⟨none, none⟩ } "t"
        (.ok [⟨"X", "img", false, "", ""⟩])).qrCodes = [⟨"X", "img", false, "X", "t"⟩] ∧
    ¬ ∃ p ∈ ([] : List AdminDashboard.Product), p.productId = "X" := by
  decide

/-- C9, amended: after a successful `generateAllQRCodes` the list in memory and the
local-storage snapshot are both replaced by the same new list, which has one entry for
each entry of the backend response, in the same order and with the same productId, named
by the product of that id in the current product set or else by the productId itself; so
it contains no entry whose productId is absent from the response. -/
theorem AdminDashboard.generateAllQRCodes_replaces (st : AdminDashboard.State) (now : String)
    (data : List AdminDashboard.QRCodeEntry) :
    (AdminDashboard.generateAllQRCodes st now (.ok data)).qrCodes
      = data.map (fun qr =>
          { qr with productName := AdminDashboard.nameFor st.products qr, generatedAt := now }) ∧
    (AdminDashboard.generateAllQRCodes st now (.ok data)).storage.generatedQRCodes
      = some (JSON.stringify (AdminDashboard.generateAllQRCodes st now (.ok data)).qrCodes) ∧
    ((AdminDashboard.generateAllQRCodes st now (.ok data)).storage.generatedQRCodes.bind
        JSON.parse) = some (AdminDashboard.generateAllQRCodes st now (.ok data)).qrCodes ∧
    (AdminDashboard.generateAllQRCodes st now (.ok data)).qrCodes.map (fun qr => qr.productId)
      = data.map (fun qr => qr.productId) ∧
    (∀ qr ∈ (AdminDashboard.generateAllQRCodes st now (.ok data)).qrCodes,
      ∃ r ∈ data, r.productId = qr.productId) := by
  refine ⟨rfl, rfl, ?_, ?_, ?_⟩
  · simp [AdminDashboard.generateAllQRCodes, AdminDashboard.saveQRCodesToStorage,
      JSON.parse_stringify]
  · simp [AdminDashboard.generateAllQRCodes, List.map_map, Function.comp_def]
  · intro qr hqr
    simp only [AdminDashboard.generateAllQRCodes, List.mem_map] at hqr
    obtain ⟨r, hr, rfl⟩ := hqr
    exact ⟨r, hr, rfl⟩

theorem AdminDashboard.generateAllQRCodes_replaces_witness :
    (AdminDashboard.generateAllQRCodes
        { products := [⟨"A", "Kurta"⟩], qrCodes := [⟨"Z", "z", false, "n", "t0"⟩],
          storage := ⟨none, none⟩ } "t"
        (.ok [⟨"A", "a", false, "", ""⟩, ⟨"X", "x", true, "", ""⟩])).qrCodes.map
      (fun qr => qr.productId) = ["A", "X"] :=
  (AdminDashboard.generateAllQRCodes_replaces
    { products := [⟨"A", "Kurta"⟩], qrCodes := [⟨"Z", "z", false, "n", "t0"⟩],
      storage := ⟨none, none⟩ } "t"
    [⟨"A", "a", false, "", ""⟩, ⟨"X", "x", true, "", ""⟩]).2.2.2.1

/-- C10: on load, a successful backend fetch puts the response in memory, whatever local
storage holds, and leaves local storage alone; a failed fetch, for any error, puts the
saved list in memory when local storage holds the snapshot of one, and leaves the state
unchanged when local storage has no snapshot. -/
theorem AdminDashboard.loadSavedQRCodesFromDB_cases (st : AdminDashboard.State)
    (data list : List AdminDashboard.QRCodeEntry) (error : AdminDashboard.HttpError) :
    (∀ storage : AdminDashboard.LocalStorage,
      (AdminDashboard.loadSavedQRCodesFromDB { st with storage := storage } (.ok data)).qrCodes
        = data ∧
      (AdminDashboard.loadSavedQRCodesFromDB { st with storage := storage } (.ok data)).storage
        = storage) ∧
    (st.storage.generatedQRCodes = some (JSON.stringify list) →
      (AdminDashboard.loadSavedQRCodesFromDB st (.error error)).qrCodes = list) ∧
    (st.storage.generatedQRCodes = none →
      (AdminDashboard.loadSavedQRCodesFromDB st (.error error)).qrCodes = st.qrCodes ∧
      (AdminDashboard.loadSavedQRCodesFromDB st (.error error)).storage = st.storage) := by
  refine ⟨fun storage => ⟨rfl, rfl⟩, ?_, ?_⟩
  · intro h
    simp only [AdminDashboard.loadSavedQRCodesFromDB]
    rw [AdminDashboard.loadSavedQRCodesFromStorage_of_saved _ _ h]
  · intro h
    simp [AdminDashboard.loadSavedQRCodesFromDB, AdminDashboard.loadSavedQRCodesFromStorage, h]

theorem AdminDashboard.loadSavedQRCodesFromDB_cases_witness :
    (AdminDashboard.loadSavedQRCodesFromDB
        { products := [], qrCodes := [],
          storage := ⟨none, some (JSON.stringify [⟨"A", "a", false, "n", "t"⟩])⟩ }
        (.error ⟨some 404, none⟩)).qrCodes = [⟨"A", "a", false, "n", "t"⟩] ∧
    (AdminDashboard.loadSavedQRCodesFromDB
        { products := [], qrCodes := [⟨"B", "b", false, "n", "t"⟩], storage := ⟨none, none⟩ }
        (.error ⟨none, none⟩)).qrCodes = [⟨"B", "b", false, "n", "t"⟩] :=
  ⟨(AdminDashboard.loadSavedQRCodesFromDB_cases
      { products := [], qrCodes := [],
        storage := ⟨none, some (JSON.stringify [⟨"A", "a", false, "n", "t"⟩])⟩ }
      [] [⟨"A", "a", false, "n", "t"⟩] ⟨some 404, none⟩).2.1 rfl,
   ((AdminDashboard.loadSavedQRCodesFromDB_cases
      { products := [], qrCodes := [⟨"B", "b", false, "n", "t"⟩], storage := ⟨none, none⟩ }
      [] [] ⟨none, none⟩).2.2 rfl).1⟩

/-- C11: when `searchVariants` of the product page stores the results of a search (the
query is not blank and the request succeeds), no stored product has the productId of the
base product or a productId that occurs in the base product's `variantColors`; the stored
list is the response without exactly those products. -/
theorem ProductPage.searchVariants_excludes (st : ProductPage.State)
    (data : List ProductPage.Product)
    (hquery : JS.trim st.variantManagement.searchQuery.data ≠ []) :
    (∀ p ∈ (ProductPage.searchVariants st (.ok data)).state.variantManagement.searchResults,
      p.productId ≠ st.product.productId ∧
      p.productId ∉ ProductPage.variantColorIds st.product) ∧
    (ProductPage.searchVariants st (.ok data)).request ≠ none := by
  simp only [ProductPage.searchVariants, hquery, if_false]
  refine ⟨?_, by simp⟩
  intro p hp
  simp only [List.mem_filter, Bool.and_eq_true, bne_iff_ne, ne_eq, Bool.not_eq_true'] at hp
  refine ⟨hp.2.1, ?_⟩
  have h2 := hp.2.2
  simp only [List.contains, List.elem_eq_mem, decide_eq_false_iff_not] at h2
  exact h2

theorem ProductPage.searchVariants_excludes_witness :
    (∀ p ∈ (ProductPage.searchVariants
        { product := ⟨"A", "Kurta", "", "", "red", "", [], ["M"], 3, some [⟨"B", "blue"⟩]⟩,
          isOwner := true, showAuth := false, selectedSize := "M", quantity := .num 1,
          inventoryLoading := false,
          variantManagement := ⟨true, "kurta", [], false, false, false⟩ }
        (.ok [⟨"A", "Kurta", "", "", "red", "", [], [], 3, none⟩,
              ⟨"B", "Kurta", "", "", "blue", "", [], [], 1, none⟩,
              ⟨"C", "Kurta", "", "", "green", "", [], [], 2, none⟩])).state.variantManagement.searchResults,
      p.productId ≠ "A" ∧
      p.productId ∉ ProductPage.variantColorIds
        ⟨"A", "Kurta", "", "", "red", "", [], ["M"], 3, some [⟨"B", "blue"⟩]⟩) ∧
    (ProductPage.searchVariants
        { product := ⟨"A", "Kurta", "", "", "red", "", [], ["M"], 3, some [⟨"B", "blue"⟩]⟩,
          isOwner := true, showAuth := false, selectedSize := "M", quantity := .num 1,
          inventoryLoading := false,
          variantManagement := ⟨true, "kurta", [], false, false, false⟩ }
        (.ok [⟨"A", "Kurta", "", "", "red", "", [], [], 3, none⟩,
              ⟨"B", "Kurta", "", "", "blue", "", [], [], 1, none⟩,
              ⟨"C", "Kurta", "", "", "green", "", [], [], 2, none⟩])).request ≠ none :=
  ProductPage.searchVariants_excludes _ _ (by decide)

/-- C12, as the claim states it, fails: `searchVariantProducts` filters by the form's
`variants` list, so on a form opened from a product that carries `variantColors` with the
entry `B` and no `variants`, a response holding `B` leaves `B` in the stored results. -/
theorem ProductFormModal.searchVariantProducts_keeps_variantColor :
    ((ProductFormModal.searchVariantProducts
        { formData :=
            { ProductManagement.getInitialFormData with
              productId := "A", variantColors := some [⟨some "blue", "B"⟩] },
          variantSearch := "kurta", variantSearchResults := [] }
        (.ok [⟨"B", "Kurta", some "blue", none⟩])).state.variantSearchResults.map
      fun p => p.productId) = ["B"] ∧
    "B" ∈ ProductManagement.variantColorIds
      { ProductManagement.getInitialFormData with
        productId := "A", variantColors := some [⟨some "blue", "B"⟩] } := by
  decide

/-- C12, amended: when `searchVariantProducts` stores the results of a search (the search
term is not blank and the request succeeds), no stored product has the form's productId
or a productId that occurs in the form's `variants` list. -/
theorem ProductFormModal.searchVariantProducts_excludes (st : ProductFormModal.State)
    (data : List ProductManagement.Candidate)
    (hterm : JS.trim st.variantSearch.data ≠ []) :
    (∀ p ∈ (ProductFormModal.searchVariantProducts st (.ok data)).state.variantSearchResults,
      p.productId ≠ st.formData.productId ∧
      p.productId ∉ ProductManagement.variantIds st.formData) ∧
    (ProductFormModal.searchVariantProducts st (.ok data)).request ≠ none := by
  simp only [ProductFormModal.searchVariantProducts, hterm, if_false]
  refine ⟨?_, by simp⟩
  intro p hp
  simp only [List.mem_filter, Bool.and_eq_true, bne_iff_ne, ne_eq, Bool.not_eq_true'] at hp
  refine ⟨hp.2.1, ?_⟩
  have h2 := hp.2.2
  simp only [List.contains, List.elem_eq_mem, decide_eq_false_iff_not] at h2
  unfold ProductManagement.variantIds
  cases hv : st.formData.variants with
  | none => simp
  | some variants =>
    rw [hv] at h2
    simpa using h2

theorem ProductFormModal.searchVariantProducts_excludes_witness :
    (∀ p ∈ (ProductFormModal.searchVariantProducts
        { formData :=
            { ProductManagement.getInitialFormData with
              productId := "A", variants := some [⟨"B", some "blue", "Kurta", []⟩] },
          variantSearch := "kurta", variantSearchResults := [] }
        (.ok [⟨"A", "Kurta", some "red", none⟩, ⟨"B", "Kurta", some "blue", none⟩,
              ⟨"C", "Kurta", some "green", none⟩])).state.variantSearchResults,
      p.productId ≠ "A" ∧
      p.productId ∉ ProductManagement.variantIds
        { ProductManagement.getInitialFormData with
          productId := "A", variants := some [⟨"B", some "blue", "Kurta", []⟩] }) ∧
    (ProductFormModal.searchVariantProducts
        { formData :=
            { ProductManagement.getInitialFormData with
              productId := "A", variants := some [⟨"B", some "blue", "Kurta", []⟩] },
          variantSearch := "kurta", variantSearchResults := [] }
        (.ok [⟨"A", "Kurta", some "red", none⟩, ⟨"B", "Kurta", some "blue", none⟩,
              ⟨"C", "Kurta", some "green", none⟩])).request ≠ none :=
  ProductFormModal.searchVariantProducts_excludes _ _ (by decide)

/-- C13: for a candidate product whose colour is missing or empty, `addProductAsVariant`
leaves the form's `variants` and `variantColors` (and the rest of the state) unchanged and
shows its alert. -/
theorem ProductFormModal.addProductAsVariant_no_color (st : ProductFormModal.State)
    (product : ProductManagement.Candidate)
    (hcolor : product.color = none ∨ product.color = some "") :
    (ProductFormModal.addProductAsVariant st product).1.formData.variants
      = st.formData.variants ∧
    (ProductFormModal.addProductAsVariant st product).1.formData.variantColors
      = st.formData.variantColors ∧
    (ProductFormModal.addProductAsVariant st product).1 = st ∧
    (ProductFormModal.addProductAsVariant st product).2
      = some "Selected product must have a color field" := by
  have h : ProductFormModal.noColor product = true := by
    rcases hcolor with h | h <;> simp [ProductFormModal.noColor, h]
  simp [ProductFormModal.addProductAsVariant, h]

theorem ProductFormModal.addProductAsVariant_no_color_witness :
    (ProductFormModal.addProductAsVariant
        { formData :=
            { ProductManagement.getInitialFormData with
              productId := "A", variants := some [⟨"B", some "blue", "Kurta", []⟩],
              variantColors := some [⟨some "blue", "B"⟩] },
          variantSearch := "kurta",
          variantSearchResults := [⟨"C", "Kurta", some "", none⟩] }
        ⟨"C", "Kurta", some "", none⟩).1.formData.variants
      = some [⟨"B", some "blue", "Kurta", []⟩] :=
  (ProductFormModal.addProductAsVariant_no_color
    { formData :=
        { ProductManagement.getInitialFormData with
          productId := "A", variants := some [⟨"B", some "blue", "Kurta", []⟩],
          variantColors := some [⟨some "blue", "B"⟩] },
      variantSearch := "kurta",
      variantSearchResults := [⟨"C", "Kurta", some "", none⟩] }
    ⟨"C", "Kurta", some "", none⟩ (Or.inr rfl)).1

/-- C14, as the claim states it, fails: `addProductAsVariant` appends every candidate that
has a colour, so a candidate whose productId `B` is already in the variant list leaves
`B` twice in it, and a candidate with the form's own productId puts that id in it. -/
theorem ProductFormModal.addProductAsVariant_duplicate :
    (ProductManagement.variantIds
        { ProductManagement.getInitialFormData with
          productId := "A", variants := some [⟨"B", some "blue", "Kurta", []⟩] }).Nodup ∧
    "A" ∉ ProductManagement.variantIds
        { ProductManagement.getInitialFormData with
          productId := "A", variants := some [⟨"B", some "blue", "Kurta", []⟩] } ∧
    ProductManagement.variantIds
      (ProductFormModal.addProductAsVariant
        { formData :=
            { ProductManagement.getInitialFormData with
              productId := "A", variants := some [⟨"B", some "blue", "Kurta", []⟩] },
          variantSearch := "", variantSearchResults := [] }
        ⟨"B", "Kurta", some "blue", none⟩).1.formData = ["B", "B"] ∧
    ¬ (ProductManagement.variantIds
      (ProductFormModal.addProductAsVariant
        { formData :=
            { ProductManagement.getInitialFormData with
              productId := "A", variants := some [⟨"B", some "blue", "Kurta", []⟩] },
          variantSearch := "", variantSearchResults := [] }
        ⟨"B", "Kurta", some "blue", none⟩).1.formData).Nodup ∧
    "A" ∈ ProductManagement.variantIds
      (ProductFormModal.addProductAsVariant
        { formData :=
            { ProductManagement.getInitialFormData with
              productId := "A", variants := some [⟨"B", some "blue", "Kurta", []⟩] },
          variantSearch := "", variantSearchResults := [] }
        ⟨"A", "Kurta", some "red", none⟩).1.formData := by
  decide

/-- C14, amended: if the form's variant list has pairwise distinct productIds none of which
is the form's own productId, then for every candidate product whose productId is neither
the form's own nor already in the variant list (as the stored search results are), the
variant list after `addProductAsVariant` still has pairwise distinct productIds and still
does not contain the form's own productId, which `addProductAsVariant` does not change. -/
theorem ProductFormModal.addProductAsVariant_distinct (st : ProductFormModal.State)
    (product : ProductManagement.Candidate)
    (hdistinct : (ProductManagement.variantIds st.formData).Nodup)
    (hown : st.formData.productId ∉ ProductManagement.variantIds st.formData)
    (hother : product.productId ≠ st.formData.productId)
    (hnew : product.productId ∉ ProductManagement.variantIds st.formData) :
    (ProductManagement.variantIds
      (ProductFormModal.addProductAsVariant st product).1.formData).Nodup ∧
    (ProductFormModal.addProductAsVariant st product).1.formData.productId
      ∉ ProductManagement.variantIds
        (ProductFormModal.addProductAsVariant st product).1.formData ∧
    (ProductFormModal.addProductAsVariant st product).1.formData.productId
      = st.formData.productId := by
  unfold ProductFormModal.addProductAsVariant
  by_cases hc : ProductFormModal.noColor product = true
  · simp only [hc, if_true]
    exact ⟨hdistinct, hown, trivial⟩
  · simp only [hc, if_false, Bool.false_eq_true]
    have hids : ProductManagement.variantIds
        (ProductManagement.handleAddVariant st.formData product)
          = ProductManagement.variantIds st.formData ++ [product.productId] := by
      simp [ProductManagement.variantIds, ProductManagement.handleAddVariant]
    rw [hids]
    refine ⟨?_, ?_, rfl⟩
    · rw [List.nodup_append]
      refine ⟨hdistinct, List.nodup_singleton _, ?_⟩
      intro a ha hb
      rw [List.mem_singleton] at hb
      exact hnew (hb ▸ ha)
    · intro hmem
      rw [List.mem_append, List.mem_singleton] at hmem
      rcases hmem with h | h
      · exact hown h
      · exact hother h.symm

theorem ProductFormModal.addProductAsVariant_distinct_witness :
    (ProductManagement.variantIds
      (ProductFormModal.addProductAsVariant
        { formData :=
            { ProductManagement.getInitialFormData with
              productId := "A", variants := some [⟨"B", some "blue", "Kurta", []⟩] },
          variantSearch := "kurta",
          variantSearchResults := [⟨"C", "Kurta", some "green", none⟩] }
        ⟨"C", "Kurta", some "green", none⟩).1.formData).Nodup :=
  (ProductFormModal.addProductAsVariant_distinct
    { formData :=
        { ProductManagement.getInitialFormData with
          productId := "A", variants := some [⟨"B", some "blue", "Kurta", []⟩] },
      variantSearch := "kurta",
      variantSearchResults := [⟨"C", "Kurta", some "green", none⟩] }
    ⟨"C", "Kurta", some "green", none⟩ (by decide) (by decide) (by decide) (by decide)).1

/-- C15: on the product page, after a successful `addVariant` and after a confirmed
successful `removeVariant`, the product's `variantColors` is the list of the response when
the response carries one and is left as it was otherwise, every other field of the product
is unchanged, and the product after `addVariant` does not depend on the candidate
product. -/
theorem ProductPage.variant_update_from_response (st : ProductPage.State)
    (variantProduct : ProductPage.Product) (variantProductId : String)
    (data : ProductPage.VariantResponse) :
    (∀ list, data.variantColors = some list →
      (ProductPage.addVariant st variantProduct (.ok data)).state.product.variantColors
        = some list ∧
      (ProductPage.removeVariant st variantProductId true (.ok data)).state.product.variantColors
        = some list) ∧
    (data.variantColors = none →
      (ProductPage.addVariant st variantProduct (.ok data)).state.product = st.product ∧
      (ProductPage.removeVariant st variantProductId true (.ok data)).state.product
        = st.product) ∧
    (ProductPage.addVariant st variantProduct (.ok data)).state.product
      = { st.product with
          variantColors :=
            (ProductPage.addVariant st variantProduct (.ok data)).state.product.variantColors } ∧
    (ProductPage.removeVariant st variantProductId true (.ok data)).state.product
      = { st.product with
          variantColors :=
            (ProductPage.removeVariant st variantProductId true
              (.ok data)).state.product.variantColors } ∧
    (∀ other : ProductPage.Product,
      (ProductPage.addVariant st other (.ok data)).state.product
        = (ProductPage.addVariant st variantProduct (.ok data)).state.product) := by
  refine ⟨?_, ?_, rfl, rfl, fun _ => rfl⟩
  · intro list h
    simp [ProductPage.addVariant, ProductPage.removeVariant, ProductPage.variantColorsOr, h]
  · intro h
    simp [ProductPage.addVariant, ProductPage.removeVariant, ProductPage.variantColorsOr, h]

theorem ProductPage.variant_update_from_response_witness :
    (ProductPage.addVariant
        { product := ⟨"A", "Kurta", "", "", "red", "", [], ["M"], 3, some [⟨"B", "blue"⟩]⟩,
          isOwner := true, showAuth := false, selectedSize := "M", quantity := .num 1,
          inventoryLoading := false,
          variantManagement := ⟨true, "kurta", [], false, false, false⟩ }
        ⟨"C", "Kurta", "", "", "green", "", [], [], 2, none⟩
        (.ok ⟨some [⟨"B", "blue"⟩, ⟨"C", "green"⟩]⟩)).state.product.variantColors
      = some [⟨"B", "blue"⟩, ⟨"C", "green"⟩] :=
  ((ProductPage.variant_update_from_response
    { product := ⟨"A", "Kurta", "", "", "red", "", [], ["M"], 3, some [⟨"B", "blue"⟩]⟩,
      isOwner := true, showAuth := false, selectedSize := "M", quantity := .num 1,
      inventoryLoading := false,
      variantManagement := ⟨true, "kurta", [], false, false, false⟩ }
    ⟨"C", "Kurta", "", "", "green", "", [], [], 2, none⟩ "C"
    ⟨some [⟨"B", "blue"⟩, ⟨"C", "green"⟩]⟩).1 _ rfl).1

/-- C16: on the product page, when no size is selected, or the entered quantity is not a
number, or it is a number not greater than 0, `handleStockUpdate` (for every operation,
`add` and `subtract` among them, and whatever the backend would answer) sends no request,
does not re-fetch, and leaves the product unchanged. -/
theorem ProductPage.handleStockUpdate_rejects (st : ProductPage.State) (operation : String)
    (response : Except Api.RequestError (Option String))
    (hbad : st.selectedSize = "" ∨ JS.Number st.quantity = none ∨
      ∃ qty, JS.Number st.quantity = some qty ∧ qty ≤ 0) :
    (ProductPage.handleStockUpdate st operation response).request = none ∧
    (ProductPage.handleStockUpdate st operation response).refetch = false ∧
    (ProductPage.handleStockUpdate st operation response).state.product = st.product := by
  unfold ProductPage.handleStockUpdate
  by_cases howner : st.isOwner = true
  · rcases hbad with h | h | ⟨qty, h, hle⟩
    · simp [howner, h]
    · by_cases hs : st.selectedSize = ""
      · simp [howner, hs]
      · simp [howner, hs, h]
    · by_cases hs : st.selectedSize = ""
      · simp [howner, hs]
      · simp [howner, hs, h, hle]
  · simp [howner]

theorem ProductPage.handleStockUpdate_rejects_witness :
    (ProductPage.handleStockUpdate
        { product := ⟨"A", "Kurta", "", "", "red", "", [], ["M"], 3, none⟩,
          isOwner := true, showAuth := false, selectedSize := "M", quantity := .num (-2),
          inventoryLoading := false,
          variantManagement := ⟨false, "", [], false, false, false⟩ }
        "subtract" (.ok none)).request = none :=
  (ProductPage.handleStockUpdate_rejects
    { product := ⟨"A", "Kurta", "", "", "red", "", [], ["M"], 3, none⟩,
      isOwner := true, showAuth := false, selectedSize := "M", quantity := .num (-2),
      inventoryLoading := false,
      variantManagement := ⟨false, "", [], false, false, false⟩ }
    "subtract" (.ok none) (Or.inr (Or.inr ⟨-2, rfl, by decide⟩))).1

/-- C17 fails on the code: with operation `add` and quantity `0`, `updateStock` of the
inventory dashboard and `handleUpdateStock` of both fabric pages send their `PATCH`
request with that quantity; the product page's `handleStockUpdate` turns the same
quantity down without a request. -/
theorem stock_update_sent_for_zero_quantity :
    (InventoryDashboard.updateStock
        { selectedProduct := some ⟨"A", "Kurta", some 3⟩,
          stockUpdate := ⟨"add", 0⟩ } "A" (.ok ())).request
      = some ⟨"PATCH", "/api/inventory/A/stock", ⟨"add", 0⟩⟩ ∧
    (FabricManagement.handleUpdateStock
        { showStockModal := true, selectedFabric := some ⟨"F1", "Silk", (20 : Int)⟩,
          stockUpdate := ⟨"add", 0⟩ } (.ok ())).request
      = some ⟨"PATCH", "/api/fabrics/F1/stock", ⟨"add", 0⟩⟩ ∧
    (FabricDetails.handleUpdateStock
        { showStockModal := true, stockUpdate := ⟨"subtract", (0 : Int)⟩ } "F1" (.ok ())).request
      = some ⟨"PATCH", "/api/fabrics/F1/stock", ⟨"subtract", 0⟩⟩ ∧
    (InventoryDashboard.onQuantityChange
        { selectedProduct := some ⟨"A", "Kurta", some 3⟩, stockUpdate := ⟨"add", 1⟩ }
        none).stockUpdate = ⟨"add", 0⟩ ∧
    (ProductPage.handleStockUpdate
        { product := ⟨"A", "Kurta", "", "", "red", "", [], ["M"], 3, none⟩,
          isOwner := true, showAuth := false, selectedSize := "M", quantity := .num 0,
          inventoryLoading := false,
          variantManagement := ⟨false, "", [], false, false, false⟩ }
        "add" (.ok none)).request = none := by
  decide

/-- C18, as the claim states it, fails: when the failure response of the product page's
stock request carries no error message but a list of shortages, the message shown is
that list, joined by line breaks, and not a fixed generic message. -/
theorem ProductPage.handleStockUpdate_shows_shortages :
    (ProductPage.handleStockUpdate
        { product := ⟨"A", "Kurta", "", "", "red", "", [], ["M"], 3, none⟩,
          isOwner := true, showAuth := false, selectedSize := "M", quantity := .num 2,
          inventoryLoading := false,
          variantManagement := ⟨false, "", [], false, false, false⟩ }
        "add" (.error ⟨"Request failed with status code 400", some 400, none,
          some ["Silk: 2m short", "Zari: 1m short"]⟩)).alert
      = some "Silk: 2m short\nZari: 1m short" ∧
    (ProductPage.handleStockUpdate
        { product := ⟨"A", "Kurta", "", "", "red", "", [], ["M"], 3, none⟩,
          isOwner := true, showAuth := false, selectedSize := "M", quantity := .num 2,
          inventoryLoading := false,
          variantManagement := ⟨false, "", [], false, false, false⟩ }
        "add" (.error ⟨"Request failed with status code 400", some 400, none,
          none⟩)).alert
      = some "Error updating stock" := by
  decide

/-- C18, amended: for a failed stock request of `handleUpdateStock` (both fabric pages) and
of the product page's `handleStockUpdate`, the message shown is exactly the backend's
error message when the failure response carries a non-empty one; when it carries none,
the fabric pages show the fixed message `Error updating stock`, and the product page shows
the response's shortages joined by line breaks when it carries a list of them and the
fixed message `Error updating stock` otherwise. -/
theorem failed_stock_update_message (α : Type) [One α]
    (fabrics : FabricManagement.State α) (details : FabricDetails.State α)
    (fabricId : String) (page : ProductPage.State) (operation : String)
    (error : Api.RequestError)
    (hfabrics : (FabricManagement.handleUpdateStock fabrics (.error error)).request ≠ none)
    (hpage : (ProductPage.handleStockUpdate page operation (.error error)).request ≠ none) :
    (∀ message, error.error = some message → message ≠ "" →
      (FabricManagement.handleUpdateStock fabrics (.error error)).alert = some message ∧
      (FabricDetails.handleUpdateStock details fabricId (.error error)).alert = some message ∧
      (ProductPage.handleStockUpdate page operation (.error error)).alert = some message) ∧
    (error.error = none →
      (FabricManagement.handleUpdateStock fabrics (.error error)).alert
        = some "Error updating stock" ∧
      (FabricDetails.handleUpdateStock details fabricId (.error error)).alert
        = some "Error updating stock" ∧
      (error.shortages = none →
        (ProductPage.handleStockUpdate page operation (.error error)).alert
          = some "Error updating stock") ∧
      (∀ shortages, error.shortages = some shortages →
        (ProductPage.handleStockUpdate page operation (.error error)).alert
          = some ("\n".intercalate shortages))) := by
  have hfab : (FabricManagement.handleUpdateStock fabrics (.error error)).alert
      = some (Api.orElse error.error "Error updating stock") := by
    unfold FabricManagement.handleUpdateStock at hfabrics ⊢
    cases hsel : fabrics.selectedFabric with
    | none => simp [hsel] at hfabrics
    | some f => simp
  have hdet : (FabricDetails.handleUpdateStock details fabricId (.error error)).alert
      = some (Api.orElse error.error "Error updating stock") := rfl
  have hpg : (ProductPage.handleStockUpdate page operation (.error error)).alert
      = some (Api.orElse error.error
          (match error.shortages with
           | some shortages => "\n".intercalate shortages
           | none => "Error updating stock")) := by
    unfold ProductPage.handleStockUpdate at hpage ⊢
    by_cases howner : page.isOwner = true
    · by_cases hs : page.selectedSize = ""
      · simp [howner, hs] at hpage
      · cases hq : JS.Number page.quantity with
        | none => simp [howner, hs, hq] at hpage
        | some qty =>
          by_cases hz : qty = 0 ∨ qty ≤ 0
          · simp [howner, hs, hq, hz] at hpage
          · simp [howner, hs, hq, hz]
    · simp [howner] at hpage
  rw [hfab, hdet, hpg]
  refine ⟨?_, ?_⟩
  · intro message hm hne
    simp [Api.orElse, hm, hne]
  · intro hnone
    refine ⟨by simp [Api.orElse, hnone], by simp [Api.orElse, hnone], ?_, ?_⟩
    · intro hs
      simp [Api.orElse, hnone, hs]
    · intro shortages hs
      simp [Api.orElse, hnone, hs]

theorem failed_stock_update_message_witness :
    (FabricManagement.handleUpdateStock
        { showStockModal := true, selectedFabric := some ⟨"F1", "Silk", (20 : Int)⟩,
          stockUpdate := ⟨"subtract", 25⟩ }
        (.error ⟨"Request failed with status code 400", some 400,
          some "Insufficient stock", none⟩)).alert = some "Insufficient stock" :=
  ((failed_stock_update_message Int
    { showStockModal := true, selectedFabric := some ⟨"F1", "Silk", (20 : Int)⟩,
      stockUpdate := ⟨"subtract", 25⟩ }
    { showStockModal := true, stockUpdate := ⟨"subtract", 25⟩ } "F1"
    { product := ⟨"A", "Kurta", "", "", "red", "", [], ["M"], 3, none⟩,
      isOwner := true, showAuth := false, selectedSize := "M", quantity := .num 2,
      inventoryLoading := false,
      variantManagement := ⟨false, "", [], false, false, false⟩ }
    "subtract"
    ⟨"Request failed with status code 400", some 400, some "Insufficient stock", none⟩
    (by decide) (by decide)).1 "Insufficient stock" rfl (by decide)).1

/-- C19: `handleClearSearch` sets the selected image to none, the preview to empty, the
result to none and the error to empty, all in the one state it returns; a
`handleSearchByImage` run on that state sends no request and sets the error to
`Please select an image first.`. -/
theorem AdminDashboard.clear_then_search (st : AdminDashboard.SearchState)
    (response : Except AdminDashboard.HttpError AdminDashboard.SearchResult) :
    (AdminDashboard.handleClearSearch st).searchImage = none ∧
    (AdminDashboard.handleClearSearch st).searchPreview = "" ∧
    (AdminDashboard.handleClearSearch st).searchResult = none ∧
    (AdminDashboard.handleClearSearch st).searchError = "" ∧
    (AdminDashboard.handleSearchByImage
      (AdminDashboard.handleClearSearch st) response).requested = false ∧
    (AdminDashboard.handleSearchByImage
      (AdminDashboard.handleClearSearch st) response).state.searchError
        = "Please select an image first." := by
  simp [AdminDashboard.handleClearSearch, AdminDashboard.handleSearchByImage]

/-- C20: when the image-search request was sent and fails with a status other than 401,
`handleSearchByImage` sets the inline error to the backend's error message if the failure
carries a non-empty one and to `Error while searching. Please try again.` otherwise, and
leaves the selected image and its preview unchanged; no redirect happens. -/
theorem AdminDashboard.handleSearchByImage_failure (st : AdminDashboard.SearchState)
    (file : AdminDashboard.File) (error : AdminDashboard.HttpError)
    (himage : st.searchImage = some file)
    (htoken : AdminDashboard.noToken st.storage = false)
    (hstatus : error.status ≠ some 401) :
    (AdminDashboard.handleSearchByImage st (.error error)).requested = true ∧
    (∀ message, error.message = some message → message ≠ "" →
      (AdminDashboard.handleSearchByImage st (.error error)).state.searchError = message) ∧
    (error.message = none →
      (AdminDashboard.handleSearchByImage st (.error error)).state.searchError
        = "Error while searching. Please try again.") ∧
    (AdminDashboard.handleSearchByImage st (.error error)).state.searchImage = some file ∧
    (AdminDashboard.handleSearchByImage st (.error error)).state.searchPreview
      = st.searchPreview ∧
    (AdminDashboard.handleSearchByImage st (.error error)).redirect = none := by
  simp only [AdminDashboard.handleSearchByImage, himage, htoken, hstatus, if_false,
    Bool.false_eq_true]
  refine ⟨trivial, ?_, ?_, trivial, trivial, trivial⟩
  · intro message hm hne
    simp [Api.orElse, hm, hne]
  · intro hnone
    simp [Api.orElse, hnone]

theorem AdminDashboard.handleSearchByImage_failure_witness :
    (AdminDashboard.handleSearchByImage
        { searchImage := some ⟨"kurta.png"⟩, searchPreview := "blob:1", searchResult := none,
          searchLoading := false, searchError := "",
          storage := ⟨some "token", none⟩ }
        (.error ⟨some 500, some "Embedding service down"⟩)).state.searchError
      = "Embedding service down" :=
  (AdminDashboard.handleSearchByImage_failure
    { searchImage := some ⟨"kurta.png"⟩, searchPreview := "blob:1", searchResult := none,
      searchLoading := false, searchError := "",
      storage := ⟨some "token", none⟩ }
    ⟨"kurta.png"⟩ ⟨some 500, some "Embedding service down"⟩ rfl (by decide) (by decide)).2.1
    "Embedding service down" rfl (by decide)

/-! ### Size stocks, variant lists and zoom: auxiliary facts -/

namespace ProductManagement

open JS

theorem map_size_setStockAt (l : List SizeStock) (i : Nat) (qty : Int) :
    (setStockAt l i qty).map (fun s => s.size) = l.map fun s => s.size := by
  induction l generalizing i with
  | nil => rfl
  | cons s rest ih =>
    cases i with
    | zero => rfl
    | succ j => simp [setStockAt, ih]

theorem mem_setStockAt (l : List SizeStock) (i : Nat) (qty : Int) (s : SizeStock)
    (hs : s ∈ setStockAt l i qty) : s ∈ l ∨ s.stock = qty := by
  induction l generalizing i with
  | nil => simp [setStockAt] at hs
  | cons a rest ih =>
    cases i with
    | zero =>
      simp only [setStockAt, List.mem_cons] at hs
      rcases hs with h | h
      · right
        rw [h]
      · left
        exact List.mem_cons_of_mem _ h
    | succ j =>
      simp only [setStockAt, List.mem_cons] at hs
      rcases hs with h | h
      · left
        rw [h]
        exact List.mem_cons_self _ _
      · rcases ih j h with h2 | h2
        · left
          exact List.mem_cons_of_mem _ h2
        · right
          exact h2

theorem filter_setStockAt (l : List SizeStock) (label : String) (i : Nat) (qty : Int)
    (hfind : findIndex (fun s => s.size == label) l = some i) :
    (setStockAt l i qty).filter (fun s => s.size != label)
      = l.filter fun s => s.size != label := by
  induction l generalizing i with
  | nil => simp [findIndex] at hfind
  | cons a rest ih =>
    by_cases ha : a.size = label
    · have h0 : i = 0 := by
        simp [findIndex, ha] at hfind
        exact hfind.symm
      subst h0
      simp [setStockAt, List.filter_cons, ha]
    · simp only [findIndex, beq_iff_eq, ha, if_false, Option.map_eq_some'] at hfind
      obtain ⟨j, hj, rfl⟩ := hfind
      simp [setStockAt, List.filter_cons, ha, ih j hj]

theorem not_mem_of_findIndex_none (l : List SizeStock) (label : String)
    (hfind : findIndex (fun s => s.size == label) l = none) :
    label ∉ l.map fun s => s.size := by
  induction l with
  | nil => simp
  | cons a rest ih =>
    by_cases ha : a.size = label
    · simp [findIndex, ha] at hfind
    · simp only [findIndex, beq_iff_eq, ha, if_false, Option.map_eq_none'] at hfind
      simp only [List.map_cons, List.mem_cons, not_or]
      exact ⟨fun h => ha h.symm, ih hfind⟩

theorem handleSizeStockChange_of_no_label (prev : FormData) (index : Nat) (value : Value)
    (h : prev.size[index]? = none ∨ prev.size[index]? = some "") :
    handleSizeStockChange prev index value = prev := by
  rcases h with h | h <;> simp [handleSizeStockChange, h]

theorem sizeStock_of_found (prev : FormData) (index : Nat) (value : Value)
    (sizeLabel : String) (i : Nat) (hl : prev.size[index]? = some sizeLabel)
    (hne : sizeLabel ≠ "")
    (hf : findIndex (fun s => s.size == sizeLabel) prev.sizeStock = some i) :
    (handleSizeStockChange prev index value).sizeStock
      = setStockAt prev.sizeStock i (orZero (Number value)) := by
  simp [handleSizeStockChange, hl, hne, hf]

theorem sizeStock_of_not_found (prev : FormData) (index : Nat) (value : Value)
    (sizeLabel : String) (hl : prev.size[index]? = some sizeLabel) (hne : sizeLabel ≠ "")
    (hf : findIndex (fun s => s.size == sizeLabel) prev.sizeStock = none) :
    (handleSizeStockChange prev index value).sizeStock
      = prev.sizeStock ++ [{ size := sizeLabel, stock := orZero (Number value) }] := by
  simp [handleSizeStockChange, hl, hne, hf]

theorem map_eraseIdx {α β : Type} (f : α → β) (l : List α) (i : Nat) :
    (l.eraseIdx i).map f = (l.map f).eraseIdx i := by
  induction l generalizing i with
  | nil => rfl
  | cons a rest ih =>
    cases i with
    | zero => rfl
    | succ j => simp [List.eraseIdx, ih]

theorem eraseIdx_append_last {α : Type} (l : List α) (x : α) (n : Nat) (hn : n = l.length) :
    (l ++ [x]).eraseIdx n = l := by
  subst hn
  induction l with
  | nil => rfl
  | cons a rest ih => simp [List.eraseIdx, ih]

end ProductManagement

/-! ### The claims on the session guard, the product form and the product page -/

/-- C21 fails on the code: with no token in local storage, `checkAuth` of the products,
fabrics, fabric-details and inventory views pushes the login route `/admin/login`, but
`checkAuth` of the dashboard sends the browser to `/`, the public home page. -/
theorem checkAuth_without_token :
    ProductManagement.checkAuth ⟨none, none⟩ = some "/admin/login" ∧
    FabricManagement.checkAuth ⟨none, none⟩ = some "/admin/login" ∧
    FabricDetails.checkAuth ⟨none, none⟩ = some "/admin/login" ∧
    InventoryDashboard.checkAuth ⟨none, none⟩ = some "/admin/login" ∧
    AdminDashboard.checkAuth ⟨none, none⟩ = some "/" ∧
    AdminDashboard.checkAuth ⟨none, none⟩ ≠ some "/admin/login" := by
  decide

/-- C22 fails on the code: on a response with the status 401, `fetchFabricDetails` and
`fetchInventoryData` leave the stored token in place and push no route, and
`fetchProducts` of the dashboard removes the token but sends the browser to `/`, not to
the login route. -/
theorem fetch_unauthorized :
    (FabricDetails.fetchFabricDetails (none : Option (FabricManagement.Fabric Int))
        ⟨some "token", none⟩
        (.error ⟨"Request failed with status code 401", some 401, some "Unauthorized",
          none⟩)).storage.ownerToken = some "token" ∧
    (FabricDetails.fetchFabricDetails (none : Option (FabricManagement.Fabric Int))
        ⟨some "token", none⟩
        (.error ⟨"Request failed with status code 401", some 401, some "Unauthorized",
          none⟩)).redirect = none ∧
    (InventoryDashboard.fetchInventoryData ⟨some "token", none⟩
        (.error ⟨"Request failed with status code 401", some 401, some "Unauthorized", none⟩)
        (.error ⟨"Request failed with status code 401", some 401, some "Unauthorized", none⟩)
        (.error ⟨"Request failed with status code 401", some 401, some "Unauthorized",
          none⟩)).storage.ownerToken = some "token" ∧
    (InventoryDashboard.fetchInventoryData ⟨some "token", none⟩
        (.error ⟨"Request failed with status code 401", some 401, some "Unauthorized", none⟩)
        (.error ⟨"Request failed with status code 401", some 401, some "Unauthorized", none⟩)
        (.error ⟨"Request failed with status code 401", some 401, some "Unauthorized",
          none⟩)).redirect = none ∧
    (AdminDashboard.fetchProducts
        { products := [], qrCodes := [], storage := ⟨some "token", none⟩ }
        (.error ⟨some 401, some "Unauthorized"⟩)).state.storage.ownerToken = none ∧
    (AdminDashboard.fetchProducts
        { products := [], qrCodes := [], storage := ⟨some "token", none⟩ }
        (.error ⟨some 401, some "Unauthorized"⟩)).redirect = some "/" := by
  decide

/-- C23: `handleAddFabricClick` appends one entry, for the selected fabric and the entered
meters, to `fabricUsed` if a fabric is selected, the meters are greater than 0, the fabric
is in the fabric list, its `currentStock` is at least the meters and no entry of
`fabricUsed` has its fabricId; in every other case `fabricUsed` is unchanged; so pairwise
distinct fabricIds in `fabricUsed` stay pairwise distinct. -/
theorem ProductFormModal.handleAddFabricClick_iff (st : ProductFormModal.FabricState) :
    (ProductFormModal.canAddFabric st →
      ∃ entry : ProductManagement.FabricUse, entry.fabricId = st.selectedFabric ∧
        some entry.metersUsed = st.fabricMeters ∧
        (ProductFormModal.handleAddFabricClick st).1.formData.fabricUsed
          = st.formData.fabricUsed ++ [entry]) ∧
    (¬ ProductFormModal.canAddFabric st →
      (ProductFormModal.handleAddFabricClick st).1.formData.fabricUsed
        = st.formData.fabricUsed) ∧
    ((st.formData.fabricUsed.map fun f => f.fabricId).Nodup →
      ((ProductFormModal.handleAddFabricClick st).1.formData.fabricUsed.map
        fun f => f.fabricId).Nodup) := by
  unfold ProductFormModal.handleAddFabricClick
  by_cases h1 : st.selectedFabric = ""
  · simp only [h1, if_true]
    refine ⟨fun hc => absurd h1 hc.1, fun _ => trivial, id⟩
  · simp only [h1, if_false]
    cases hm : st.fabricMeters with
    | none =>
      refine ⟨?_, fun _ => rfl, id⟩
      rintro ⟨_, meters, fabric, hmeters, _⟩
      rw [hm] at hmeters
      exact absurd hmeters (by simp)
    | some meters =>
      by_cases h2 : meters ≤ 0
      · simp only [h2, if_true]
        refine ⟨?_, fun _ => trivial, id⟩
        rintro ⟨_, m, fabric, hmeters, hpos, _⟩
        rw [hm] at hmeters
        cases hmeters
        exact absurd hpos (not_lt.mpr h2)
      · simp only [h2, if_false]
        cases hf : st.fabrics.find? (fun f => f.fabricId == st.selectedFabric) with
        | none =>
          refine ⟨?_, fun _ => rfl, id⟩
          rintro ⟨_, m, fabric, _, _, hfind, _⟩
          rw [hf] at hfind
          exact absurd hfind (by simp)
        | some fabric =>
          by_cases h3 : fabric.currentStock < meters
          · simp only [h3, if_true]
            refine ⟨?_, fun _ => trivial, id⟩
            rintro ⟨_, m, fabric2, hmeters, _, hfind, hstock, _⟩
            rw [hm] at hmeters
            cases hmeters
            rw [hf] at hfind
            cases hfind
            exact absurd h3 (not_lt.mpr hstock)
          · simp only [h3, if_false]
            cases hu : st.formData.fabricUsed.find?
                (fun f => f.fabricId == st.selectedFabric) with
            | some used =>
              refine ⟨?_, fun _ => rfl, id⟩
              rintro ⟨_, m, fabric2, _, _, _, _, hnone⟩
              have hmem := List.mem_of_find?_eq_some hu
              have hid := List.find?_some hu
              exact absurd (by simpa using hid) (hnone used hmem)
            | none =>
              have hpos : meters > 0 := not_le.mp h2
              have hid : fabric.fabricId = st.selectedFabric := by
                simpa using List.find?_some hf
              have hfresh : ∀ f ∈ st.formData.fabricUsed, f.fabricId ≠ st.selectedFabric := by
                intro f hfm
                have := List.find?_eq_none.mp hu f hfm
                simpa using this
              have happ :
                  (ProductManagement.addFabricToProduct st.formData st.fabrics
                      st.selectedFabric (some meters)).fabricUsed
                    = st.formData.fabricUsed ++
                      [{ fabricId := fabric.fabricId, fabricName := fabric.name,
                         metersUsed := meters, costPerMeter := fabric.costPerMeter,
                         totalCost := meters * fabric.costPerMeter }] := by
                simp [ProductManagement.addFabricToProduct, hf, hpos]
              simp only [happ]
              refine ⟨fun _ => ⟨_, hid, rfl, rfl⟩, ?_, ?_⟩
              · intro hn
                exact absurd ⟨h1, meters, fabric, hm, hpos, hf, not_lt.mp h3, hfresh⟩ hn
              · intro hnodup
                rw [List.map_append, List.nodup_append]
                refine ⟨hnodup, List.nodup_singleton _, ?_⟩
                intro a ha hb
                simp only [List.map_cons, List.map_nil, List.mem_singleton] at hb
                obtain ⟨f, hfm, rfl⟩ := List.mem_map.mp ha
                exact hfresh f hfm (hb.trans hid)

theorem ProductFormModal.handleAddFabricClick_iff_witness :
    ∃ entry : ProductManagement.FabricUse, entry.fabricId = "F1" ∧
      some entry.metersUsed = some (2 : ℚ) ∧
      (ProductFormModal.handleAddFabricClick
        { formData := ProductManagement.getInitialFormData,
          fabrics := [⟨"F1", "Silk", 20, 150⟩], selectedFabric := "F1",
          fabricMeters := some 2 }).1.formData.fabricUsed
        = ProductManagement.getInitialFormData.fabricUsed ++ [entry] :=
  (ProductFormModal.handleAddFabricClick_iff
    { formData := ProductManagement.getInitialFormData,
      fabrics := [⟨"F1", "Silk", 20, 150⟩], selectedFabric := "F1",
      fabricMeters := some 2 }).1
    ⟨by decide, 2, ⟨"F1", "Silk", 20, 150⟩, rfl, by norm_num, rfl, by norm_num,
      fun f hf => absurd hf (List.not_mem_nil f)⟩

/-- C24, as the claim states it, fails: `handleSizeStockChange` takes the input value as
`Number(value) || 0` without a lower bound, so on a form with the non-negative size stock
`(S, 2)` the input `-3` for `S` leaves the total stock `-3`. -/
theorem ProductManagement.handleSizeStockChange_negative_total :
    (ProductManagement.handleSizeStockChange
        { ProductManagement.getInitialFormData with
          size := ["S"], sizeStock := [⟨"S", 2⟩], stock := .num 2 }
        0 (.str "-3")).stock = .num (-3) ∧
    (ProductManagement.handleSizeStockChange
        { ProductManagement.getInitialFormData with
          size := ["S"], sizeStock := [⟨"S", 2⟩], stock := .num 2 }
        0 (.str "-3")).sizeStock = [⟨"S", -3⟩] := by
  decide

/-- C24, amended: for every product form state whose `sizeStock` counts are all
non-negative integers and whose size list has a non-empty label at `index`, and for every
input value that is a non-negative integer `qty` (a number, or a text that `Number` reads
as one, the empty text being `0`), the total stock that `handleSizeStockChange` stores is
the sum of the resulting counts and is a non-negative integer; every resulting count is a
count of the list before or `qty` itself, and is non-negative. -/
theorem ProductManagement.handleSizeStockChange_nonneg (prev : ProductManagement.FormData)
    (index : Nat) (value : JS.Value) (sizeLabel : String) (qty : Int)
    (hcounts : ∀ s ∈ prev.sizeStock, 0 ≤ s.stock)
    (hlabel : prev.size[index]? = some sizeLabel) (hne : sizeLabel ≠ "")
    (hvalue : JS.Number value = some qty) (hqty : 0 ≤ qty) :
    (∃ total : Int, 0 ≤ total ∧
      total = ((ProductManagement.handleSizeStockChange prev index value).sizeStock.map
        fun s => s.stock).sum ∧
      (ProductManagement.handleSizeStockChange prev index value).stock = .num total) ∧
    (∀ s ∈ (ProductManagement.handleSizeStockChange prev index value).sizeStock,
      (s ∈ prev.sizeStock ∨ s.stock = qty) ∧ 0 ≤ s.stock) := by
  have hq : JS.orZero (JS.Number value) = qty := by
    simp only [hvalue, JS.orZero]
    split_ifs with h0
    · exact h0.symm
    · rfl
  have hold : ∀ s ∈ (ProductManagement.handleSizeStockChange prev index value).sizeStock,
      s ∈ prev.sizeStock ∨ s.stock = qty := by
    intro s hs
    simp only [ProductManagement.handleSizeStockChange, hlabel, hne, if_false, hq] at hs
    cases hf : ProductManagement.findIndex (fun s => s.size == sizeLabel) prev.sizeStock with
    | none =>
      simp only [hf, List.mem_append, List.mem_singleton] at hs
      rcases hs with h | h
      · exact Or.inl h
      · right
        rw [h]
    | some i =>
      simp only [hf] at hs
      exact ProductManagement.mem_setStockAt _ _ _ _ hs
  have hall : ∀ s ∈ (ProductManagement.handleSizeStockChange prev index value).sizeStock,
      0 ≤ s.stock := by
    intro s hs
    rcases hold s hs with h | h
    · exact hcounts s h
    · rw [h]
      exact hqty
  refine ⟨⟨((ProductManagement.handleSizeStockChange prev index value).sizeStock.map
      fun s => s.stock).sum, ?_, rfl, ?_⟩, fun s hs => ⟨hold s hs, hall s hs⟩⟩
  · apply List.sum_nonneg
    intro x hx
    obtain ⟨s, hs, rfl⟩ := List.mem_map.mp hx
    exact hall s hs
  · unfold ProductManagement.handleSizeStockChange
    simp [hlabel, hne, ProductManagement.foldl_stock]

theorem ProductManagement.handleSizeStockChange_nonneg_witness :
    ∃ total : Int, 0 ≤ total ∧
      total = ((ProductManagement.handleSizeStockChange
        { ProductManagement.getInitialFormData with
          size := ["S", "M"], sizeStock := [⟨"S", 2⟩, ⟨"M", 3⟩], stock := .num 5 }
        1 (.str "5")).sizeStock.map fun s => s.stock).sum ∧
      (ProductManagement.handleSizeStockChange
        { ProductManagement.getInitialFormData with
          size := ["S", "M"], sizeStock := [⟨"S", 2⟩, ⟨"M", 3⟩], stock := .num 5 }
        1 (.str "5")).stock = .num total :=
  (ProductManagement.handleSizeStockChange_nonneg
    { ProductManagement.getInitialFormData with
      size := ["S", "M"], sizeStock := [⟨"S", 2⟩, ⟨"M", 3⟩], stock := .num 5 }
    1 (.str "5") "M" 5 (by decide) (by decide) (by decide) (by decide) (by decide)).1

/-- C25: if the `sizeStock` list has pairwise distinct size labels, then after
`handleSizeStockChange(index, value)` it still has, it has at most one more entry (and
none fewer), and the entries for labels other than the one at `index` are the same, in the
same order; without a label at `index` the list is unchanged. -/
theorem ProductManagement.handleSizeStockChange_labels (prev : ProductManagement.FormData)
    (index : Nat) (value : JS.Value)
    (hdistinct : (prev.sizeStock.map fun s => s.size).Nodup) :
    ((ProductManagement.handleSizeStockChange prev index value).sizeStock.map
      fun s => s.size).Nodup ∧
    (ProductManagement.handleSizeStockChange prev index value).sizeStock.length
      ≤ prev.sizeStock.length + 1 ∧
    prev.sizeStock.length
      ≤ (ProductManagement.handleSizeStockChange prev index value).sizeStock.length ∧
    (∀ sizeLabel, prev.size[index]? = some sizeLabel →
      (ProductManagement.handleSizeStockChange prev index value).sizeStock.filter
          (fun s => s.size != sizeLabel)
        = prev.sizeStock.filter fun s => s.size != sizeLabel) ∧
    (prev.size[index]? = none →
      (ProductManagement.handleSizeStockChange prev index value).sizeStock
        = prev.sizeStock) := by
  cases hl : prev.size[index]? with
  | none =>
    rw [ProductManagement.handleSizeStockChange_of_no_label prev index value (Or.inl hl)]
    exact ⟨hdistinct, Nat.le_succ _, le_refl _, fun _ _ => rfl, fun _ => rfl⟩
  | some sizeLabel =>
    by_cases hne : sizeLabel = ""
    · subst hne
      rw [ProductManagement.handleSizeStockChange_of_no_label prev index value (Or.inr hl)]
      exact ⟨hdistinct, Nat.le_succ _, le_refl _, fun _ _ => rfl, fun _ => rfl⟩
    · cases hf : ProductManagement.findIndex (fun s => s.size == sizeLabel)
          prev.sizeStock with
      | none =>
        have hnot := ProductManagement.not_mem_of_findIndex_none _ _ hf
        rw [ProductManagement.sizeStock_of_not_found prev index value sizeLabel hl hne hf]
        refine ⟨?_, by simp, by simp, ?_, fun h => absurd h (by simp)⟩
        · rw [List.map_append, List.nodup_append]
          refine ⟨hdistinct, List.nodup_singleton _, ?_⟩
          intro a ha hb
          simp only [List.map_cons, List.map_nil, List.mem_singleton] at hb
          exact hnot (hb ▸ ha)
        · intro label hlab
          simp only [Option.some.injEq] at hlab
          subst hlab
          simp [List.filter_append]
      | some i =>
        have hlen : (ProductManagement.setStockAt prev.sizeStock i
            (JS.orZero (JS.Number value))).length = prev.sizeStock.length := by
          have := congrArg List.length
            (ProductManagement.map_size_setStockAt prev.sizeStock i
              (JS.orZero (JS.Number value)))
          simpa using this
        rw [ProductManagement.sizeStock_of_found prev index value sizeLabel i hl hne hf]
        refine ⟨?_, ?_, ?_, ?_, fun h => absurd h (by simp)⟩
        · rw [ProductManagement.map_size_setStockAt]
          exact hdistinct
        · rw [hlen]
          exact Nat.le_succ _
        · rw [hlen]
        · intro label hlab
          simp only [Option.some.injEq] at hlab
          subst hlab
          exact ProductManagement.filter_setStockAt _ _ _ _ hf

theorem ProductManagement.handleSizeStockChange_labels_witness :
    ((ProductManagement.handleSizeStockChange
        { ProductManagement.getInitialFormData with
          size := ["S", "M"], sizeStock := [⟨"S", 2⟩], stock := .num 2 }
        1 (.str "5")).sizeStock.map fun s => s.size).Nodup ∧
    (ProductManagement.handleSizeStockChange
        { ProductManagement.getInitialFormData with
          size := ["S", "M"], sizeStock := [⟨"S", 2⟩], stock := .num 2 }
        1 (.str "5")).sizeStock = [⟨"S", 2⟩, ⟨"M", 5⟩] :=
  ⟨(ProductManagement.handleSizeStockChange_labels
      { ProductManagement.getInitialFormData with
        size := ["S", "M"], sizeStock := [⟨"S", 2⟩], stock := .num 2 }
      1 (.str "5") (by decide)).1, by decide⟩

/-- C26: when the backend request of `generateQRCode` or of `generateAllQRCodes` fails,
whatever the failure, the whole state, with the QR list in memory and the snapshot in
local storage, is left as it was. -/
theorem AdminDashboard.generate_failure_unchanged (st : AdminDashboard.State)
    (productId productName now : String) (error : AdminDashboard.HttpError) :
    (AdminDashboard.generateQRCode st productId productName now (.error error)).qrCodes
      = st.qrCodes ∧
    (AdminDashboard.generateQRCode st productId productName now
      (.error error)).storage.generatedQRCodes = st.storage.generatedQRCodes ∧
    AdminDashboard.generateQRCode st productId productName now (.error error) = st ∧
    (AdminDashboard.generateAllQRCodes st now (.error error)).qrCodes = st.qrCodes ∧
    (AdminDashboard.generateAllQRCodes st now (.error error)).storage.generatedQRCodes
      = st.storage.generatedQRCodes ∧
    AdminDashboard.generateAllQRCodes st now (.error error) = st := by
  simp [AdminDashboard.generateQRCode, AdminDashboard.generateAllQRCodes]

/-- C27: a successful `generateQRCode(p, name)` leaves in memory the entries whose
productId differs from `p`, in their order, followed by the new entry; a confirmed
`deleteQRCode(p)` leaves in memory exactly the entries whose productId differs from `p`,
in their order, a sub-list of the list before. -/
theorem AdminDashboard.generate_delete_frame (st : AdminDashboard.State)
    (productId productName now : String) (data : AdminDashboard.QRCodeEntry)
    (captured : List AdminDashboard.QRCodeEntry)
    (response : Except AdminDashboard.HttpError Unit) :
    (AdminDashboard.generateQRCode st productId productName now (.ok data)).qrCodes
      = (st.qrCodes.filter fun qr => qr.productId != productId)
          ++ [{ data with productName := productName, generatedAt := now }] ∧
    (AdminDashboard.generateQRCode st productId productName now (.ok data)).qrCodes.dropLast
      = (st.qrCodes.filter fun qr => qr.productId != productId) ∧
    (AdminDashboard.generateQRCode st productId productName now (.ok data)).qrCodes.getLast?
      = some { data with productName := productName, generatedAt := now } ∧
    (AdminDashboard.deleteQRCode st captured productId true response).qrCodes
      = (st.qrCodes.filter fun qr => qr.productId != productId) ∧
    ((AdminDashboard.deleteQRCode st captured productId true response).qrCodes).Sublist
      st.qrCodes := by
  refine ⟨rfl, ?_, ?_, rfl, ?_⟩
  · simp [AdminDashboard.generateQRCode]
  · simp [AdminDashboard.generateQRCode]
  · simp only [AdminDashboard.deleteQRCode, if_true]
    exact List.filter_sublist _

/-- C28: when `searchVariants` of the product page stores the results of a search (the
query is not blank and the request succeeds), the stored list is the response filtered,
in response order, by "the productId is not the base product's and not in its
`variantColors`"; every such product of the response is in the stored list. -/
theorem ProductPage.searchVariants_retains (st : ProductPage.State)
    (data : List ProductPage.Product)
    (hquery : JS.trim st.variantManagement.searchQuery.data ≠ []) :
    (ProductPage.searchVariants st (.ok data)).state.variantManagement.searchResults
      = data.filter (fun p =>
          decide (p.productId ≠ st.product.productId ∧
            p.productId ∉ ProductPage.variantColorIds st.product)) ∧
    (∀ p ∈ data, p.productId ≠ st.product.productId →
      p.productId ∉ ProductPage.variantColorIds st.product →
      p ∈ (ProductPage.searchVariants st (.ok data)).state.variantManagement.searchResults) ∧
    ((ProductPage.searchVariants st (.ok data)).state.variantManagement.searchResults).Sublist
      data := by
  have hres :
      (ProductPage.searchVariants st (.ok data)).state.variantManagement.searchResults
        = data.filter (fun p =>
            decide (p.productId ≠ st.product.productId ∧
              p.productId ∉ ProductPage.variantColorIds st.product)) := by
    simp only [ProductPage.searchVariants, hquery, if_false]
    apply List.filter_congr
    intro p _
    by_cases h : p.productId = st.product.productId <;>
      simp [ProductPage.variantColorIds, List.contains, h]
  refine ⟨hres, ?_, ?_⟩
  · intro p hp h1 h2
    rw [hres, List.mem_filter]
    exact ⟨hp, by simp [h1, h2]⟩
  · rw [hres]
    exact List.filter_sublist _

theorem ProductPage.searchVariants_retains_witness :
    ((ProductPage.searchVariants
        { product := ⟨"A", "Kurta", "", "", "red", "", [], ["M"], 3, some [⟨"B", "blue"⟩]⟩,
          isOwner := true, showAuth := false, selectedSize := "M", quantity := .num 1,
          inventoryLoading := false,
          variantManagement := ⟨true, "kurta", [], false, false, false⟩ }
        (.ok [⟨"C", "Kurta", "", "", "green", "", [], [], 2, none⟩,
              ⟨"B", "Kurta", "", "", "blue", "", [], [], 1, none⟩,
              ⟨"D", "Kurta", "", "", "black", "", [], [], 2,
                none⟩])).state.variantManagement.searchResults).Sublist
      [⟨"C", "Kurta", "", "", "green", "", [], [], 2, none⟩,
       ⟨"B", "Kurta", "", "", "blue", "", [], [], 1, none⟩,
       ⟨"D", "Kurta", "", "", "black", "", [], [], 2, none⟩] :=
  (ProductPage.searchVariants_retains _ _ (by decide)).2.2

/-- C29: if the form's `variants` and `variantColors` are both there and have the same
productId and colour at every position, then they still do after `handleAddVariant` for
every product and after `handleRemoveVariant` for every index (which then does not
throw), and `handleRemoveVariant` at the position of the entry just added gives back the
form as it was before `handleAddVariant`. -/
theorem ProductManagement.variants_stay_in_sync (f : ProductManagement.FormData)
    (product : ProductManagement.Candidate) (index : Nat)
    (hsync : ProductManagement.variantsInSync f) :
    ProductManagement.variantsInSync (ProductManagement.handleAddVariant f product) ∧
    (∃ g, ProductManagement.handleRemoveVariant f index = some g ∧
      ProductManagement.variantsInSync g) ∧
    (∀ variants, f.variants = some variants →
      ProductManagement.handleRemoveVariant
        (ProductManagement.handleAddVariant f product) variants.length = some f) := by
  unfold ProductManagement.variantsInSync at hsync
  cases hv : f.variants with
  | none => simp [hv] at hsync
  | some variants =>
    cases hc : f.variantColors with
    | none => simp [hv, hc] at hsync
    | some variantColors =>
      simp only [hv, hc] at hsync
      have hlen : variantColors.length = variants.length := by
        have := congrArg List.length hsync
        simpa using this.symm
      refine ⟨?_, ?_, ?_⟩
      · simp [ProductManagement.variantsInSync, ProductManagement.handleAddVariant, hv, hc,
          hsync]
      · refine ⟨{ f with
            variants := some (variants.eraseIdx index),
            variantColors := some (variantColors.eraseIdx index) }, ?_, ?_⟩
        · simp only [ProductManagement.handleRemoveVariant, hv, hc]
        · simp only [ProductManagement.variantsInSync]
          rw [ProductManagement.map_eraseIdx, ProductManagement.map_eraseIdx, hsync]
      · intro vs hvs
        simp only [Option.some.injEq] at hvs
        subst hvs
        simp only [ProductManagement.handleRemoveVariant, ProductManagement.handleAddVariant,
          hv, hc, Option.getD_some]
        rw [ProductManagement.eraseIdx_append_last _ _ _ rfl,
          ProductManagement.eraseIdx_append_last _ _ _ hlen.symm]
        cases f
        simp only at hv hc
        subst hv hc
        rfl

theorem ProductManagement.variants_stay_in_sync_witness :
    ProductManagement.variantsInSync
      (ProductManagement.handleAddVariant
        { ProductManagement.getInitialFormData with
          productId := "A", variants := some [⟨"B", some "blue", "Kurta", []⟩],
          variantColors := some [⟨some "blue", "B"⟩] }
        ⟨"C", "Kurta", some "green", none⟩) ∧
    ProductManagement.handleRemoveVariant
      (ProductManagement.handleAddVariant
        { ProductManagement.getInitialFormData with
          productId := "A", variants := some [⟨"B", some "blue", "Kurta", []⟩],
          variantColors := some [⟨some "blue", "B"⟩] }
        ⟨"C", "Kurta", some "green", none⟩) 1
      = some { ProductManagement.getInitialFormData with
          productId := "A", variants := some [⟨"B", some "blue", "Kurta", []⟩],
          variantColors := some [⟨some "blue", "B"⟩] } :=
  ⟨(ProductManagement.variants_stay_in_sync
      { ProductManagement.getInitialFormData with
        productId := "A", variants := some [⟨"B", some "blue", "Kurta", []⟩],
        variantColors := some [⟨some "blue", "B"⟩] }
      ⟨"C", "Kurta", some "green", none⟩ 0 (by decide)).1,
   (ProductManagement.variants_stay_in_sync
      { ProductManagement.getInitialFormData with
        productId := "A", variants := some [⟨"B", some "blue", "Kurta", []⟩],
        variantColors := some [⟨some "blue", "B"⟩] }
      ⟨"C", "Kurta", some "green", none⟩ 0 (by decide)).2.2
        [⟨"B", some "blue", "Kurta", []⟩] rfl⟩

/-- C30: on the product page, for a number type in which `0.5 ≤ 1` and `1 ≤ 3` hold (as
they do for the numbers of the code), the zoom level after any finite sequence of
`handleZoom` steps, of any direction, and `resetZoom` steps from the initial level 1 lies
between `0.5` and `3`, both included. -/
theorem ProductPage.zoom_within_bounds (α : Type) [LinearOrder α] [Add α] [Sub α]
    [OfScientific α] [OfNat α 3] [OfNat α 1]
    (hlow : (0.5 : α) ≤ 1) (hhigh : (1 : α) ≤ 3) (steps : List ProductPage.ZoomStep) :
    (0.5 : α) ≤ ProductPage.zoomAfter steps ∧ (ProductPage.zoomAfter steps : α) ≤ 3 := by
  have hstep : ∀ (z : α) (step : ProductPage.ZoomStep),
      (0.5 : α) ≤ ProductPage.zoomStep z step ∧ ProductPage.zoomStep z step ≤ 3 := by
    intro z step
    cases step with
    | handleZoom direction =>
      exact ⟨le_min (le_max_right _ _) (le_trans hlow hhigh), min_le_right _ _⟩
    | resetZoom => exact ⟨hlow, hhigh⟩
  have hfold : ∀ (l : List ProductPage.ZoomStep) (z : α), (0.5 : α) ≤ z ∧ z ≤ 3 →
      (0.5 : α) ≤ l.foldl ProductPage.zoomStep z ∧ l.foldl ProductPage.zoomStep z ≤ 3 := by
    intro l
    induction l with
    | nil => exact fun z hz => hz
    | cons step rest ih => exact fun z _ => ih _ (hstep z step)
  exact hfold steps 1 ⟨hlow, hhigh⟩

theorem ProductPage.zoom_within_bounds_witness :
    (0.5 : ℚ) ≤ 1 ∧ (1 : ℚ) ≤ 3 ∧
    ((0.5 : ℚ) ≤ ProductPage.zoomAfter
        [.handleZoom "out", .handleZoom "out", .handleZoom "out", .handleZoom "out",
         .resetZoom, .handleZoom "in"] ∧
      (ProductPage.zoomAfter
        [.handleZoom "out", .handleZoom "out", .handleZoom "out", .handleZoom "out",
         .resetZoom, .handleZoom "in"] : ℚ) ≤ 3) :=
  ⟨by norm_num, by norm_num,
    ProductPage.zoom_within_bounds ℚ (by norm_num) (by norm_num) _⟩
